import Mathlib

/-!
Shallow embedding of the Smart Logistics Simulation (ANSI) multi-agent
coordination engine, together with theorems about its behaviour.

The Python sources are translated as follows:
- grid cells are pairs of integers;
- Python dictionaries are modelled either as functions with `Option`
  results (the reservation table) or as association lists preserving
  insertion order (planned moves, the package table);
- Python sets are modelled as lists queried only through membership;
- floating point cost arithmetic is modelled over `ℚ`;
- the pathfinder `smart_astar` (a float-heap best-first search) and the
  `random.shuffle` of candidate directions in the deadlock resolver are
  taken as parameters, so every theorem quantifies over them.
-/

namespace SLS

/-- A grid cell `(row, col)`. -/
abbrev Cell : Type := ℤ × ℤ

/-- A movement direction `(dr, dc)`. -/
abbrev Dir : Type := ℤ × ℤ

/-- The mutable part of `core/settings.py` that a JSON config may
override (`rows`, `cols`, `max_steps`); everything else is a constant. -/
structure Settings where
  rows : ℤ
  cols : ℤ
  maxSteps : ℕ
deriving DecidableEq, Repr

/-- Default settings of `core/settings.py`. -/
def defaultSettings : Settings := { rows := 26, cols := 80, maxSteps := 1000 }

def YIELD_THRESHOLD : ℕ := 3
def DECISION_WAIT_THRESHOLD : ℕ := 5
def FORCE_MOVE_THRESHOLD : ℕ := 10
def DEADLOCK_THRESHOLD : ℕ := 15
def REASSIGN_THRESHOLD : ℕ := 30
def ORPHAN_CHECK_INTERVAL : ℕ := 1
def IDLE_RECHECK_INTERVAL : ℕ := 1
def TIME_HORIZON : ℕ := 30
def MAX_WAIT_ACTIONS : ℕ := 5
def TURN_PENALTY : ℚ := 3/2
def CORRIDOR_BONUS : ℚ := 4/5
def WAIT_COST : ℚ := 6/5

/-- `GridUtils.in_bounds`. -/
def in_bounds (S : Settings) (r c : ℤ) : Bool :=
  decide (0 ≤ r) && decide (r < S.rows) && decide (0 ≤ c) && decide (c < S.cols)

/-- `GridUtils.manhattan`. -/
def manhattan (a b : Cell) : ℕ :=
  (a.1 - b.1).natAbs + (a.2 - b.2).natAbs

/-- `GridUtils.get_direction`. -/
def get_direction (f t : Cell) : Dir := (t.1 - f.1, t.2 - f.2)

/-- `GridUtils.is_turn`. -/
def is_turn (old new : Dir) : Bool :=
  if old = ((0 : ℤ), (0 : ℤ)) then false else decide (old ≠ new)

/-- `GridUtils.create_wall` for a rectangle `[r1, c1, r2, c2]`
(inclusive, corners may be given in any order). -/
def create_wall (w : ℤ × ℤ × ℤ × ℤ) : List Cell :=
  let r1 := w.1; let c1 := w.2.1; let r2 := w.2.2.1; let c2 := w.2.2.2
  let rs := min r1 r2; let re := max r1 r2
  let cs := min c1 c2; let ce := max c1 c2
  (List.range (re - rs + 1).toNat).flatMap (fun i =>
    (List.range (ce - cs + 1).toNat).map (fun j => ((rs + i : ℤ), (cs + j : ℤ))))

/-! ## The reservation table (`utils/time_space_astar.py`, class `ReservationTable`)

`reservations : {timestep: {position: robot_id}}` is modelled as a
function `ℕ → Cell → Option ℕ` (a nested dictionary queried by key), and
`robot_reservations : {robot_id: [(position, timestep), ...]}` as a
function to lists with the `defaultdict` default `[]`. -/

structure ReservationTable where
  reservations : ℕ → Cell → Option ℕ
  robot_reservations : ℕ → List (Cell × ℕ)

/-- The freshly constructed, empty reservation table. -/
def ReservationTable.empty : ReservationTable :=
  { reservations := fun _ _ => none, robot_reservations := fun _ => [] }

/-- `ReservationTable.reserve`: books `(position, timestep)` for
`robot_id`, overwriting whatever entry the slot held. -/
def reserve (robot_id : ℕ) (position : Cell) (timestep : ℕ)
    (T : ReservationTable) : ReservationTable :=
  { reservations := fun t p =>
    if t = timestep ∧ p = position then some robot_id else T.reservations t p,
    robot_reservations := fun r =>
    if r = robot_id then T.robot_reservations r ++ [(position, timestep)]
    else T.robot_reservations r }

/-- `ReservationTable.is_reserved`. -/
def is_reserved (T : ReservationTable) (position : Cell) (timestep : ℕ)
    (exclude_robot : Option ℕ) : Bool :=
  match T.reservations timestep position with
  | some reserved_by =>
      if exclude_robot = some reserved_by then false else true
  | none => false

/-- `ReservationTable.get_reserved_by`. -/
def get_reserved_by (T : ReservationTable) (position : Cell) (timestep : ℕ) :
    Option ℕ :=
  T.reservations timestep position

/-- One deletion step of `ReservationTable.clear_robot`: the booking at
`(pos, timestep)` is deleted only when its current holder is `robot_id`. -/
def delete_if_held (robot_id : ℕ) (s : Cell × ℕ) (f : ℕ → Cell → Option ℕ) :
    ℕ → Cell → Option ℕ :=
  if f s.2 s.1 = some robot_id then
    fun t p => if t = s.2 ∧ p = s.1 then none else f t p
  else f

/-- `ReservationTable.clear_robot`. -/
def clear_robot (robot_id : ℕ) (T : ReservationTable) : ReservationTable :=
  { reservations :=
      (T.robot_reservations robot_id).foldl
        (fun f s => delete_if_held robot_id s f) T.reservations,
    robot_reservations := fun r =>
      if r = robot_id then [] else T.robot_reservations r }

/-- `ReservationTable.clear_old`: drops every outer timestep key
`t < current_time` and filters each per-robot list accordingly. -/
def clear_old (current_time : ℕ) (T : ReservationTable) : ReservationTable :=
  {
      reservations := fun t p => if t < current_time then none else T.reservations t p,
      robot_reservations := fun r =>
      (T.robot_reservations r).filter (fun s => current_time ≤ s.2) }

/-- The `(position, timestep)` slots booked by
`ReservationTable.reserve_path` for `path` starting at `start_time`: the
path cells at consecutive ticks followed by the terminal dwell of the
last cell for `TIME_HORIZON` further ticks. -/
def pathSlots (path : List Cell) (start_time : ℕ) : List (Cell × ℕ) :=
  path.zip (List.range' start_time path.length) ++
    (match path.getLast? with
     | some last_pos =>
         (List.range' (start_time + path.length) TIME_HORIZON).map
           (fun t => (last_pos, t))
     | none => [])

/-- Booking a list of slots in order for one robot (the loops inside
`ReservationTable.reserve_path`). -/
def reserveList (robot_id : ℕ) (slots : List (Cell × ℕ))
    (T : ReservationTable) : ReservationTable :=
  slots.foldl (fun T' s => reserve robot_id s.1 s.2 T') T

/-- `ReservationTable.reserve_path`: clears the robot first, then books
each path cell at consecutive ticks and the terminal dwell. -/
def reserve_path (robot_id : ℕ) (path : List Cell) (start_time : ℕ)
    (T : ReservationTable) : ReservationTable :=
  reserveList robot_id (pathSlots path start_time) (clear_robot robot_id T)

/-! ## Robots and packages (`controllers/simulation_controller.py`) -/

/-- Agent finite-state-machine states (Python strings). -/
inductive RState where
  | IDLE | HOME | TO_PICKUP | TO_DROPOFF | EVACUATING
deriving DecidableEq, Repr

/-- Decision modes (Python strings). -/
inductive DMode where
  | NORMAL | YIELDING | RETREAT | FORCED
deriving DecidableEq, Repr

/-- Package statuses (Python strings). -/
inductive PStatus where
  | WAITING | PICKED | DELIVERED
deriving DecidableEq, Repr

/-- The robot dictionary built by `_init_robots` (the `name` and
`last_decision_step` entries are never read by the engine and are
omitted). -/
structure Robot where
  id : ℕ
  pos : Cell
  home : Cell
  state : RState
  path : List Cell
  package : Option ℕ
  wait_count : ℕ
  evac_target : Option Cell
  last_dir : Dir
  momentum : ℕ
  total_turns : ℕ
  decision_mode : DMode
  yield_to : Option ℕ
  stuck_at : Option Cell
  stuck_count : ℕ
  failed_paths : List Cell
  position_history : List Cell
  evac_start_step : ℕ
  yield_start_step : ℕ
deriving DecidableEq, Repr

/-- The package dictionary built by `_init_packages` (minus `name`). -/
structure Package where
  pickup : Cell
  dropoff : Cell
  status : PStatus
  assigned_to : Option ℕ
deriving DecidableEq, Repr

/-- `sim.packages`: a dictionary `pid → package` in insertion order. -/
abbrev Packages : Type := List (ℕ × Package)

/-- Dictionary lookup `packages[pid]` (first matching key). -/
def lookupPkg (pkgs : Packages) (pid : ℕ) : Option Package :=
  (pkgs.find? (fun e => e.1 == pid)).map (fun e => e.2)

/-- Dictionary write `packages[pid] = f packages[pid]`. -/
def updatePkg (pkgs : Packages) (pid : ℕ) (f : Package → Package) : Packages :=
  pkgs.map (fun e => if e.1 = pid then (e.1, f e.2) else e)

/-- A fresh robot as `_init_robots` builds it at `pos` with `id`. -/
def mkRobot (id : ℕ) (pos : Cell) : Robot :=
  {
      id := id, pos := pos, home := pos, state := .IDLE, path := [],
      package := none, wait_count := 0, evac_target := none,
      last_dir := (0, 0), momentum := 0, total_turns := 0,
      decision_mode := .NORMAL, yield_to := none, stuck_at := none,
      stuck_count := 0, failed_paths := [], position_history := [],
      evac_start_step := 0, yield_start_step := 0 }

/-- `get_robot_by_id` (first robot carrying the id). -/
def get_robot_by_id (robots : List Robot) (robot_id : ℕ) : Option Robot :=
  robots.find? (fun rb => rb.id == robot_id)

/-- Index of the first robot carrying the id. -/
def idxOfId (robots : List Robot) (robot_id : ℕ) : Option ℕ :=
  robots.findIdx? (fun rb => rb.id == robot_id)

/-- `_compute_corridor_map` as a total function: obstacle cells and
cells outside the grid score `0` (a missing dictionary key is read back
with default `0`), free cells count their free in-bounds 8-neighbours. -/
def corridor_map (S : Settings) (obstacles : List Cell) (pos : Cell) : ℕ :=
  if in_bounds S pos.1 pos.2 = false ∨ pos ∈ obstacles then 0
  else
    (([(-1, -1), (-1, 0), (-1, 1), (0, -1), (0, 1), (1, -1), (1, 0), (1, 1)] :
        List Dir).filter (fun d =>
      in_bounds S (pos.1 + d.1) (pos.2 + d.2) &&
        decide ((pos.1 + d.1, pos.2 + d.2) ∉ obstacles))).length

/-- `is_safe_cell` (controller and deadlock resolver versions are
identical). -/
def is_safe_cell (S : Settings) (obstacles : List Cell) (pos : Cell) : Bool :=
  in_bounds S pos.1 pos.2 && decide (pos ∉ obstacles)

/-! ## PathFinder helpers (`utils/pathfinding.py`) -/

/-- `PathFinder.can_enter_dropoff` (identical in `TimeSpaceAStar`): the
decision of the first package whose dropoff is `pos` wins. -/
def can_enter_dropoff (pkgs : Packages) (robot : Robot) (pos : Cell) : Bool :=
  match pkgs with
  | [] => true
  | (pid, pkg) :: rest =>
      if pkg.dropoff = pos then
        decide (robot.package = some pid ∧ robot.state = .TO_DROPOFF) ||
          decide (pkg.status = .DELIVERED) || decide (pkg.status = .WAITING)
      else can_enter_dropoff rest robot pos

/-- `PathFinder.can_enter_pickup` (identical in `TimeSpaceAStar`). -/
def can_enter_pickup (pkgs : Packages) (robot : Robot) (pos : Cell) : Bool :=
  (match robot.package with
   | some pid =>
       match lookupPkg pkgs pid with
       | some my_pkg => decide (my_pkg.pickup = pos ∧ robot.state = .TO_PICKUP)
       | none => false
   | none => false) ||
  !(pkgs.any (fun e => decide (e.2.pickup = pos) && decide (e.2.status = .WAITING)))

/-- `PathFinder.get_robot_priority` (identical in `TimeSpaceAStar`). -/
def get_robot_priority (robot : Robot) : ℕ :=
  (match robot.state with
   | .TO_DROPOFF => 3000
   | .TO_PICKUP => 2000
   | .EVACUATING => 1500
   | .HOME => 1000
   | .IDLE => 0) +
  robot.wait_count * 100 +
  (if robot.path ≠ [] then 500 - min robot.path.length 500 else 0) +
  robot.momentum * 50

/-- `PathFinder.is_narrow_passage` (identical in `TimeSpaceAStar` as
`_is_narrow_passage`): at most two open 4-neighbours. -/
def is_narrow_passage (S : Settings) (obstacles : List Cell) (pos : Cell) : Bool :=
  (([(-1, 0), (1, 0), (0, -1), (0, 1)] : List Dir).filter (fun d =>
      in_bounds S (pos.1 + d.1) (pos.2 + d.2) &&
        decide ((pos.1 + d.1, pos.2 + d.2) ∉ obstacles))).length ≤ 2

/-- The type of the `smart_astar` search taken as a parameter:
arguments are start, goal, blocked set and the requesting robot. -/
abbrev AStarFn : Type := Cell → Cell → List Cell → Robot → List Cell

/-- `PathFinder.smooth_path` is the identity (smoothing is disabled). -/
def smooth_path (path : List Cell) (_robot : Robot) : List Cell := path

/-! ## Time-Space A* move cost (`utils/time_space_astar.py`) -/

/-- `TimeSpaceAStar._calculate_move_cost`, over `ℚ`.  The route
analyzer is abstracted by its two query functions `highway` and
`main_corridor`. -/
def calculate_move_cost (S : Settings) (obstacles : List Cell)
    (highway : Cell → ℚ) (main_corridor : Cell → Bool)
    (robot : Robot) (nxt : Cell) (last_dir new_dir : Dir)
    (use_route_system : Bool) : ℚ :=
  let c1 : ℚ := 1 + (robot.id % 3 : ℕ) * (15 / 100)
  let c2 : ℚ :=
    if is_turn last_dir new_dir ∧ last_dir ≠ ((0 : ℤ), (0 : ℤ)) then
      c1 + TURN_PENALTY * (7 / 10)
    else c1
  let cs := corridor_map S obstacles nxt
  let c3 : ℚ := if cs ≥ 6 then c2 * CORRIDOR_BONUS
    else if cs ≤ 2 then c2 * (13 / 10) else c2
  let c4 : ℚ :=
    if use_route_system then
      let c4a : ℚ := if highway nxt > 0 then
          c3 * max (85 / 100) (1 - highway nxt * (3 / 100))
        else c3
      if main_corridor nxt then c4a * (92 / 100) else c4a
    else c3
  let c5 : ℚ :=
    if ¬ is_turn last_dir new_dir ∧ robot.momentum > 0 then
      c4 * max (65 / 100) (1 - (robot.momentum : ℚ) * (6 / 100))
    else c4
  if is_narrow_passage S obstacles nxt ∧ get_robot_priority robot < 2000 then
    c5 * (3 / 2)
  else c5

/-- The `step_cost` composition exactly as the specification words it:
base `1.0`, plus the per-agent bias, plus the turn penalty when the move
is a turn, times the corridor factors, times the route-shaping factors
when active, times the momentum factor when the move continues
`last_dir` with positive momentum, times `1.5` on a narrow passage
unless the agent's priority is at least `2000`. -/
def spec_step_cost (S : Settings) (obstacles : List Cell)
    (highway : Cell → ℚ) (main_corridor : Cell → Bool)
    (robot : Robot) (nxt : Cell) (last_dir new_dir : Dir)
    (use_route_system : Bool) : ℚ :=
  (1 + (robot.id % 3 : ℕ) * (15 / 100) +
    (if is_turn last_dir new_dir then TURN_PENALTY * (7 / 10) else 0)) *
  (if corridor_map S obstacles nxt ≥ 6 then CORRIDOR_BONUS else 1) *
  (if corridor_map S obstacles nxt ≤ 2 then 13 / 10 else 1) *
  (if use_route_system then max (85 / 100) (1 - highway nxt * (3 / 100)) else 1) *
  (if use_route_system ∧ main_corridor nxt then 92 / 100 else 1) *
  (if new_dir = last_dir ∧ robot.momentum > 0 then
      max (65 / 100) (1 - (robot.momentum : ℚ) * (6 / 100))
    else 1) *
  (if is_narrow_passage S obstacles nxt ∧ get_robot_priority robot < 2000 then
      3 / 2
    else 1)

/-- `spec_step_cost` with the momentum-factor guard amended to "the move
does not turn", i.e. `¬ is_turn last_dir new_dir` (which also covers an
agent that has no direction yet, `last_dir = (0,0)`). -/
def spec_step_cost_amended (S : Settings) (obstacles : List Cell)
    (highway : Cell → ℚ) (main_corridor : Cell → Bool)
    (robot : Robot) (nxt : Cell) (last_dir new_dir : Dir)
    (use_route_system : Bool) : ℚ :=
  (1 + (robot.id % 3 : ℕ) * (15 / 100) +
    (if is_turn last_dir new_dir then TURN_PENALTY * (7 / 10) else 0)) *
  (if corridor_map S obstacles nxt ≥ 6 then CORRIDOR_BONUS else 1) *
  (if corridor_map S obstacles nxt ≤ 2 then 13 / 10 else 1) *
  (if use_route_system then max (85 / 100) (1 - highway nxt * (3 / 100)) else 1) *
  (if use_route_system ∧ main_corridor nxt then 92 / 100 else 1) *
  (if ¬ is_turn last_dir new_dir ∧ robot.momentum > 0 then
      max (65 / 100) (1 - (robot.momentum : ℚ) * (6 / 100))
    else 1) *
  (if is_narrow_passage S obstacles nxt ∧ get_robot_priority robot < 2000 then
      3 / 2
    else 1)

/-! ## Deadlock resolver (`utils/deadlock_resolver.py`) -/

/-- `DeadlockResolver.get_robot_importance`. -/
def get_robot_importance (robot : Robot) : ℕ :=
  (match robot.state with
   | .TO_DROPOFF =>
       1000 +
         (if robot.package.isSome ∧ robot.path ≠ [] then
            500 - min robot.path.length 500
          else 0)
   | .TO_PICKUP => 500
   | .HOME => 100
   | .EVACUATING => 50
   | .IDLE => 0) +
  robot.momentum * 20 +
  robot.wait_count * 10

/-- `DeadlockResolver.get_emergency_move`.  `dirs` is the order that
`random.shuffle` produced for the four orthogonal directions; the robot
is returned as well because the fallback pass clears `failed_paths`. -/
def get_emergency_move (S : Settings) (obstacles : List Cell)
    (robots : List Robot) (dirs : List Dir) (robot : Robot) :
    Option Cell × Robot :=
  match dirs.find? (fun d =>
      let nxt : Cell := (robot.pos.1 + d.1, robot.pos.2 + d.2)
      is_safe_cell S obstacles nxt &&
        !(robots.any (fun o => decide (o.id ≠ robot.id) && decide (o.pos = nxt))) &&
        decide (nxt ∉ robot.failed_paths)) with
  | some d => (some (robot.pos.1 + d.1, robot.pos.2 + d.2), robot)
  | none =>
      let robot' := { robot with failed_paths := [] }
      match dirs.find? (fun d =>
          let nxt : Cell := (robot.pos.1 + d.1, robot.pos.2 + d.2)
          is_safe_cell S obstacles nxt &&
            !(robots.any (fun o =>
                decide (o.id ≠ robot.id) && decide (o.pos = nxt)))) with
      | some d => (some (robot.pos.1 + d.1, robot.pos.2 + d.2), robot')
      | none => (none, robot')

/-- One step of `trace_wait_chain`'s bounded loop. -/
def trace_wait_chain_go (robots : List Robot) (fuel : ℕ) (current : Robot)
    (chain : List ℕ) : List ℕ :=
  match fuel with
  | 0 => chain
  | fuel + 1 =>
      match current.path.head? with
      | none => chain
      | some next_pos =>
          match robots.find? (fun rb =>
              decide (rb.id ≠ current.id) && decide (rb.pos = next_pos)) with
          | none => chain
          | some next_robot =>
              if next_robot.id ∈ chain then chain ++ [next_robot.id]
              else trace_wait_chain_go robots fuel next_robot
                (chain ++ [next_robot.id])

/-- `DeadlockResolver.trace_wait_chain` with its default `max_depth=10`. -/
def trace_wait_chain (robots : List Robot) (start_robot : Robot) : List ℕ :=
  trace_wait_chain_go robots 10 start_robot [start_robot.id]

/-- `DeadlockResolver.decide_who_yields`. -/
def decide_who_yields (robot1 robot2 : Robot) : Robot :=
  let imp1 := get_robot_importance robot1
  let imp2 := get_robot_importance robot2
  if ((imp1 : ℤ) - imp2).natAbs > 100 then
    if imp1 < imp2 then robot1 else robot2
  else
    let path1_len := if robot1.path ≠ [] then robot1.path.length else 999
    let path2_len := if robot2.path ≠ [] then robot2.path.length else 999
    if path1_len ≠ path2_len then
      if path1_len > path2_len then robot1 else robot2
    else if robot1.id < robot2.id then robot1 else robot2

/-- `DeadlockResolver.find_yield_position`. -/
def find_yield_position (S : Settings) (obstacles : List Cell)
    (corridor : Cell → ℕ) (robots : List Robot)
    (robot yield_to_robot : Robot) : Option Cell :=
  let other_path : List Cell := yield_to_robot.path.take 5 ++ [yield_to_robot.pos]
  let candidates := ([(-1, 0), (1, 0), (0, -1), (0, 1), (-1, -1), (-1, 1),
      (1, -1), (1, 1)] : List Dir)
  (candidates.foldl (fun acc d =>
      let nxt : Cell := (robot.pos.1 + d.1, robot.pos.2 + d.2)
      if is_safe_cell S obstacles nxt = false then acc
      else if robots.any (fun o => decide (o.id ≠ robot.id) && decide (o.pos = nxt)) then acc
      else if nxt ∈ other_path then acc
      else
        let min_dist := (other_path.map (fun p => manhattan nxt p)).foldl min 1000000
        let score : ℤ := (corridor nxt : ℤ) + min_dist * 2
        if score > acc.1 then (score, some nxt) else acc)
    ((-999 : ℤ), (none : Option Cell))).2

/-- `DeadlockResolver.find_retreat_path`: step up to `steps` cells in the
direction opposite to `last_dir`, stopping at unsafe or occupied cells. -/
def find_retreat_path_go (S : Settings) (obstacles : List Cell)
    (robots : List Robot) (robot : Robot) (opposite : Dir) (steps : ℕ)
    (current : Cell) (acc : List Cell) : List Cell :=
  match steps with
  | 0 => acc
  | steps + 1 =>
      let nxt : Cell := (current.1 + opposite.1, current.2 + opposite.2)
      if is_safe_cell S obstacles nxt = false then acc
      else if robots.any (fun o => decide (o.id ≠ robot.id) && decide (o.pos = nxt)) then acc
      else find_retreat_path_go S obstacles robots robot opposite steps nxt
        (acc ++ [nxt])

def find_retreat_path (S : Settings) (obstacles : List Cell)
    (robots : List Robot) (robot : Robot) (steps : ℕ) : List Cell :=
  find_retreat_path_go S obstacles robots robot
    (-robot.last_dir.1, -robot.last_dir.2) steps robot.pos []

/-- `DeadlockResolver.get_critical_paths`. -/
def get_critical_paths (robots : List Robot) : List (ℕ × List Cell) :=
  (robots.filter (fun rb =>
      decide (rb.state = .TO_DROPOFF) && rb.package.isSome)).map
    (fun rb => (rb.id, rb.path))

/-- `DeadlockResolver.is_in_critical_path`. -/
def is_in_critical_path (robot : Robot)
    (critical_paths : List (ℕ × List Cell)) : Option ℕ :=
  (critical_paths.find? (fun e =>
      decide (robot.id ≠ e.1) && decide (robot.pos ∈ e.2))).map (fun e => e.1)

/-- `DeadlockResolver.is_near_active_dropoff`. -/
def is_near_active_dropoff (pkgs : Packages) (robots : List Robot)
    (robot : Robot) (radius : ℕ) : Bool :=
  robots.any (fun rb =>
    decide (rb.state = .TO_DROPOFF) &&
      (match rb.package with
       | some pid =>
           match lookupPkg pkgs pid with
           | some pkg => decide (manhattan robot.pos pkg.dropoff ≤ radius)
           | none => false
       | none => false))

/-- A placeholder robot used for (unreachable) out-of-range list reads. -/
def dummyRobot : Robot := mkRobot 0 (0, 0)

/-- The inner 4-neighbour scan of one BFS iteration of
`find_evacuation_spot`. -/
def evac_scan (S : Settings) (obstacles : List Cell) (corridor : Cell → ℕ)
    (robots : List Robot) (robot : Robot) (all_critical reserved : List Cell)
    (pos : Cell) (dist : ℕ)
    (acc : List Cell × List (Cell × ℕ) × ℚ × Option Cell) (d : Dir) :
    List Cell × List (Cell × ℕ) × ℚ × Option Cell :=
  let (visited, queue, best_score, best_spot) := acc
  let nxt : Cell := (pos.1 + d.1, pos.2 + d.2)
  if nxt ∈ visited then acc
  else
    let visited' := visited ++ [nxt]
    if is_safe_cell S obstacles nxt = false then (visited', queue, best_score, best_spot)
    else if robots.any (fun o => decide (o.id ≠ robot.id) && decide (o.pos = nxt)) then
      (visited', queue ++ [(nxt, dist + 1)], best_score, best_spot)
    else if nxt ∈ reserved then
      (visited', queue ++ [(nxt, dist + 1)], best_score, best_spot)
    else
      let (best_score', best_spot') :=
        if nxt ∉ all_critical then
          let corner_count := (([(-1, 0), (1, 0), (0, -1), (0, 1)] : List Dir).filter
            (fun d2 => decide ((nxt.1 + d2.1, nxt.2 + d2.2) ∈ obstacles))).length
          let score : ℚ := (corridor nxt : ℚ) * 2 - (dist : ℚ) * (1 / 2) +
            (if corner_count ≥ 2 then 5 else 0)
          if score > best_score then (score, some nxt) else (best_score, best_spot)
        else (best_score, best_spot)
      (visited', queue ++ [(nxt, dist + 1)], best_score', best_spot')

/-- The bounded BFS loop of `find_evacuation_spot` (the `while` loop
runs while the queue is non-empty and fewer than 30 cells are visited;
the fuel of 100 strictly exceeds the number of iterations that bound
permits). -/
def evac_bfs (S : Settings) (obstacles : List Cell) (corridor : Cell → ℕ)
    (robots : List Robot) (robot : Robot) (all_critical reserved : List Cell)
    (fuel : ℕ) (visited : List Cell) (queue : List (Cell × ℕ))
    (best_score : ℚ) (best_spot : Option Cell) : Option Cell :=
  match fuel with
  | 0 => best_spot
  | fuel + 1 =>
      match queue with
      | [] => best_spot
      | (pos, dist) :: rest =>
          if visited.length ≥ 30 then best_spot
          else if dist > 4 then
            evac_bfs S obstacles corridor robots robot all_critical reserved
              fuel visited rest best_score best_spot
          else
            let (visited', queue', best_score', best_spot') :=
              (([(-1, 0), (1, 0), (0, -1), (0, 1)] : List Dir).foldl
                (evac_scan S obstacles corridor robots robot all_critical
                  reserved pos dist) (visited, rest, best_score, best_spot))
            evac_bfs S obstacles corridor robots robot all_critical reserved
              fuel visited' queue' best_score' best_spot'

/-- `DeadlockResolver.find_evacuation_spot`. -/
def find_evacuation_spot (S : Settings) (obstacles : List Cell)
    (corridor : Cell → ℕ) (robots : List Robot) (robot : Robot)
    (critical_paths : List (ℕ × List Cell)) (reserved : List Cell) :
    Option Cell :=
  let all_critical : List Cell := (critical_paths.map (fun e => e.2)).flatten
  match ([(-1, 0), (1, 0), (0, -1), (0, 1)] : List Dir).find? (fun d =>
      let nxt : Cell := (robot.pos.1 + d.1, robot.pos.2 + d.2)
      is_safe_cell S obstacles nxt &&
        !(robots.any (fun o => decide (o.id ≠ robot.id) && decide (o.pos = nxt))) &&
        decide (nxt ∉ reserved) &&
        decide (nxt ∉ all_critical) && decide (corridor nxt ≥ 4)) with
  | some d => some (robot.pos.1 + d.1, robot.pos.2 + d.2)
  | none =>
      match evac_bfs S obstacles corridor robots robot all_critical reserved
        100 [robot.pos] [(robot.pos, 0)] (-999) none with
      | some best_spot => some best_spot
      | none =>
          (([(-1, 0), (1, 0), (0, -1), (0, 1), (-1, -1), (-1, 1), (1, -1),
              (1, 1)] : List Dir).find? (fun d =>
            let nxt : Cell := (robot.pos.1 + d.1, robot.pos.2 + d.2)
            is_safe_cell S obstacles nxt && decide (nxt ∉ reserved) &&
              !(robots.any (fun o =>
                  decide (o.id ≠ robot.id) && decide (o.pos = nxt))))).map
            (fun d => (robot.pos.1 + d.1, robot.pos.2 + d.2))

/-- The action component returned by `make_decisive_action`. -/
inductive DecisiveAction where
  | WAIT
  | YIELD (pos : Cell)
  | REPATH
  | RETREAT (path : List Cell)
  | EMERGENCY (pos : Cell)
deriving DecidableEq, Repr

/-- The emergency-move tail shared by several `make_decisive_action`
branches: try `get_emergency_move`, else REPATH. -/
def emergency_step (S : Settings) (obstacles : List Cell)
    (dirs : ℕ → List Dir) (i : ℕ) (robots : List Robot) (rb : Robot) :
    DecisiveAction × List Robot :=
  match get_emergency_move S obstacles robots (dirs rb.id) rb with
  | (some pos, rb') =>
      (.EMERGENCY pos, robots.set i { rb' with decision_mode := .FORCED })
  | (none, rb') => (.REPATH, robots.set i rb')

/-- The `wait_count ≥ DEADLOCK_THRESHOLD` tail of
`make_decisive_action`: possibly pre-empt the occupant of `path[0]`,
else emergency. -/
def deadlock_tail (S : Settings) (obstacles : List Cell)
    (corridor : Cell → ℕ) (dirs : ℕ → List Dir) (i : ℕ)
    (robots : List Robot) (rb : Robot) : DecisiveAction × List Robot :=
  match rb.path.head? with
  | some next_pos =>
      match robots.findIdx? (fun o =>
          decide (o.id ≠ rb.id) && decide (o.pos = next_pos)) with
      | some j =>
          let occupant := robots.getD j dummyRobot
          if get_robot_importance rb > get_robot_importance occupant + 200 then
            let occ1 := { occupant with decision_mode := .FORCED }
            match find_yield_position S obstacles corridor robots occ1 rb with
            | some evac_pos =>
                let occ2 := { occ1 with
                  path := [evac_pos],
                  state := .EVACUATING, evac_target := some evac_pos }
                (.WAIT, (robots.set j occ2).set i rb)
            | none => emergency_step S obstacles dirs i (robots.set j occ1) rb
          else emergency_step S obstacles dirs i robots rb
      | none => emergency_step S obstacles dirs i robots rb
  | none => emergency_step S obstacles dirs i robots rb

/-- The bookkeeping prologue of `make_decisive_action`: track the
stuck cell and clear `failed_paths` for a package-carrying robot that
has waited at least 3 ticks. -/
def decisive_bookkeeping (rb0 : Robot) : Robot :=
  let rb1 := if rb0.stuck_at = some rb0.pos then
      { rb0 with stuck_count := rb0.stuck_count + 1 }
    else { rb0 with stuck_at := some rb0.pos, stuck_count := 1 }
  if rb1.wait_count ≥ 3 ∧ rb1.package.isSome then
    { rb1 with failed_paths := [] }
  else rb1

/-- `DeadlockResolver.make_decisive_action` acting on the robot at
index `i`; returns the action together with the updated robot list
(this function, like the Python original, may also mutate the occupant
of `path[0]` in the final branch). -/
def make_decisive_action (S : Settings) (obstacles : List Cell)
    (corridor : Cell → ℕ) (dirs : ℕ → List Dir) (robots : List Robot)
    (i : ℕ) : DecisiveAction × List Robot :=
  match robots.get? i with
  | none => (.WAIT, robots)
  | some rb0 =>
      let rb2 := decisive_bookkeeping rb0
      if rb2.wait_count < YIELD_THRESHOLD then (.WAIT, robots.set i rb2)
      else
        let fallback : DecisiveAction × List Robot :=
          if rb2.path = [] then
            (.REPATH, robots.set i { rb2 with failed_paths := [] })
          else (.WAIT, robots.set i rb2)
        if rb2.wait_count < DECISION_WAIT_THRESHOLD then
          match rb2.path.head? with
          | some next_pos =>
              match robots.findIdx? (fun o =>
                  decide (o.id ≠ rb2.id) && decide (o.pos = next_pos)) with
              | some j =>
                  let blocker := robots.getD j dummyRobot
                  let yielder := decide_who_yields rb2 blocker
                  if yielder.id = rb2.id then
                    match find_yield_position S obstacles corridor robots rb2
                        blocker with
                    | some yield_pos =>
                        (.YIELD yield_pos, robots.set i { rb2 with
                          decision_mode := .YIELDING,
                          yield_to := some blocker.id })
                    | none => fallback
                  else fallback
              | none => fallback
          | none => fallback
        else if rb2.wait_count < FORCE_MOVE_THRESHOLD then
          let rb3 := match rb2.path.head? with
            | some h => { rb2 with failed_paths := [h], decision_mode := .NORMAL }
            | none => { rb2 with failed_paths := [], decision_mode := .NORMAL }
          (.REPATH, robots.set i rb3)
        else if rb2.wait_count < DEADLOCK_THRESHOLD then
          let rb3 := { rb2 with failed_paths := [] }
          let retreat_path := find_retreat_path S obstacles robots rb3 3
          if retreat_path ≠ [] then
            (.RETREAT retreat_path,
              robots.set i { rb3 with decision_mode := .RETREAT })
          else emergency_step S obstacles dirs i robots rb3
        else
          let rb3 := { rb2 with failed_paths := [], stuck_count := 0 }
          if rb3.state = .IDLE ∨ rb3.state = .HOME then
            match get_emergency_move S obstacles robots (dirs rb3.id) rb3 with
            | (some pos, rb') =>
                (.EMERGENCY pos,
                  robots.set i { rb' with decision_mode := .FORCED })
            | (none, rb') =>
                deadlock_tail S obstacles corridor dirs i robots rb'
          else deadlock_tail S obstacles corridor dirs i robots rb3

/-! ## Robot manager (`utils/robot_manager.py`) -/

/-- `RobotManager.get_blocked_for_robot`: obstacles, other robots'
positions and the reserved set, minus the robot's own cell, plus the
dropoffs of PICKED packages other than the robot's own target. -/
def get_blocked_for_robot (S : Settings) (obstacles : List Cell)
    (pkgs : Packages) (robots : List Robot) (robot : Robot)
    (reserved : List Cell) : List Cell :=
  let _ := S
  let base := obstacles ++
    ((robots.filter (fun o => decide (o.id ≠ robot.id))).map (fun o => o.pos)) ++
    reserved
  let base' := base.filter (fun c => decide (c ≠ robot.pos))
  let my_dropoff : Option Cell :=
    match robot.package with
    | some pid =>
        if robot.state = .TO_DROPOFF then
          (lookupPkg pkgs pid).map (fun p => p.dropoff)
        else none
    | none => none
  base' ++ ((pkgs.filter (fun e =>
      decide (e.2.status = .PICKED) && decide (some e.2.dropoff ≠ my_dropoff))).map
    (fun e => e.2.dropoff))

/-- `RobotManager.get_traffic_density`. -/
def get_traffic_density (robots : List Robot) (pos : Cell) (robot_id : ℕ) : ℚ :=
  robots.foldl (fun density rb =>
    if rb.id = robot_id then density
    else
      let dist := manhattan pos rb.pos
      if dist = 0 then density + 10
      else if dist ≤ 2 then density + 5 / (dist : ℚ)
      else if dist ≤ 4 then density + 2 / (dist : ℚ)
      else density) 0

/-- `RobotManager.request_package`: choose the WAITING, unassigned
package minimising the weighted cost (Python sorts the `(cost, pid)`
pairs and takes the first, i.e. the lexicographic minimum). -/
def request_package (S : Settings) (obstacles : List Cell)
    (robots : List Robot) (pkgs : Packages) (robot : Robot) :
    Option ℕ × Packages :=
  let candidates : List (ℚ × ℕ) := pkgs.foldl (fun acc e =>
    let (pid, pkg) := e
    if pkg.status = .WAITING ∧ pkg.assigned_to = none then
      let pickup_dist := manhattan robot.pos pkg.pickup
      let dropoff_dist := manhattan pkg.pickup pkg.dropoff
      let traffic_cost := get_traffic_density robots pkg.pickup robot.id
      let passage_penalty : ℚ :=
        if is_narrow_passage S obstacles pkg.pickup then 2 else 0
      let competing := (robots.filter (fun rb =>
          decide (rb.id ≠ robot.id) && rb.package.isSome &&
            decide (manhattan rb.pos pkg.pickup < pickup_dist))).length
      let total_cost : ℚ := (pickup_dist : ℚ) * 1 + (dropoff_dist : ℚ) * (1/5) +
        traffic_cost * (3/2) + passage_penalty + (competing : ℚ) * 3
      acc ++ [(total_cost, pid)]
    else acc) []
  let best := candidates.foldl (fun acc e =>
    match acc with
    | none => some e
    | some b => if e.1 < b.1 ∨ (e.1 = b.1 ∧ e.2 < b.2) then some e else acc) none
  match best with
  | some (_, best_pid) =>
      (some best_pid,
        updatePkg pkgs best_pid (fun p => { p with assigned_to := some robot.id }))
  | none => (none, pkgs)

/-- `RobotManager.detect_oscillation` (window 5): appends the current
position to the ring, trims it to ten entries, and reports whether the
last five entries visit at most three distinct cells. -/
def detect_oscillation (robot : Robot) : Bool × Robot :=
  let h1 := robot.position_history ++ [robot.pos]
  let h2 := if h1.length > 10 then h1.tail else h1
  let osc := if h2.length ≥ 5 then
      ((h2.drop (h2.length - 5)).dedup).length ≤ 3
    else false
  (osc, { robot with position_history := h2 })

/-- `RobotManager.clear_oscillation_history`. -/
def clear_oscillation_history (robot : Robot) : Robot :=
  { robot with position_history := [] }

/-- `RobotManager.force_reset_stuck_state`. -/
def force_reset_stuck_state (robot : Robot) (pkgs : Packages) :
    Robot × Packages :=
  let rb := { robot with
    state := .IDLE, decision_mode := .NORMAL, path := [],
    evac_target := none, yield_to := none, wait_count := 0,
    failed_paths := [], position_history := [], evac_start_step := 0,
    yield_start_step := 0, momentum := 0 }
  match rb.package with
  | some pid =>
      match lookupPkg pkgs pid with
      | some pkg =>
          if pkg.status = .WAITING then
            ({ rb with
                package := none },
              updatePkg pkgs pid (fun p => { p with assigned_to := none }))
          else (rb, pkgs)
      | none => (rb, pkgs)
  | none => (rb, pkgs)

/-- `RobotManager.cleanup_orphaned_assignments`. -/
def cleanup_orphaned_assignments (robots : List Robot) (pkgs : Packages) :
    Packages :=
  pkgs.map (fun e =>
    let (pid, pkg) := e
    if pkg.status ≠ .WAITING then e
    else match pkg.assigned_to with
      | none => e
      | some aid =>
          match get_robot_by_id robots aid with
          | none => e
          | some ar =>
              if ar.package = some pid ∧
                  (ar.state = .TO_PICKUP ∨ ar.state = .TO_DROPOFF) then e
              else (pid, { pkg with assigned_to := none }))

/-- `RobotManager.fix_robot_states`. -/
def fix_robot_states (S : Settings) (obstacles : List Cell) (astar : AStarFn)
    (robots : List Robot) (pkgs : Packages) : List Robot :=
  (List.range robots.length).foldl (fun rs i =>
    let rb := rs.getD i dummyRobot
    match rb.package with
    | some pid =>
        match lookupPkg pkgs pid with
        | some pkg =>
            if pkg.status = .PICKED ∧ rb.state = .IDLE then
              let rb1 := { rb with state := .TO_DROPOFF, failed_paths := [] }
              let blocked := get_blocked_for_robot S obstacles pkgs rs rb1 []
              rs.set i { rb1 with
                path := astar rb1.pos pkg.dropoff blocked rb1,
                wait_count := 0 }
            else if pkg.status = .WAITING ∧ rb.state = .IDLE then
              let rb1 := { rb with state := .TO_PICKUP, failed_paths := [] }
              let blocked := get_blocked_for_robot S obstacles pkgs rs rb1 []
              rs.set i { rb1 with
                path := astar rb1.pos pkg.pickup blocked rb1,
                wait_count := 0 }
            else rs
        | none => rs
    | none => rs) robots

/-- `RobotManager.reassign_stuck_packages`. -/
def reassign_stuck_packages (S : Settings) (obstacles : List Cell)
    (astar : AStarFn) (robots : List Robot) (pkgs : Packages) :
    List Robot × Packages :=
  (pkgs.map (fun e => e.1)).foldl (fun st pid =>
    let (rs, ps) := st
    match lookupPkg ps pid with
    | none => st
    | some pkg =>
        if pkg.status ≠ .WAITING then st
        else match pkg.assigned_to with
          | none => st
          | some aid =>
              match idxOfId rs aid with
              | none => st
              | some ai =>
                  let assigned := rs.getD ai dummyRobot
                  if assigned.wait_count > REASSIGN_THRESHOLD then
                    let base_dist := manhattan assigned.pos pkg.pickup
                    let best := (List.range rs.length).foldl (fun acc j =>
                      let rb := rs.getD j dummyRobot
                      if rb.id = assigned.id then acc
                      else if rb.state ≠ .IDLE ∧ rb.state ≠ .HOME then acc
                      else if rb.wait_count > YIELD_THRESHOLD then acc
                      else
                        let dist := manhattan rb.pos pkg.pickup
                        match acc with
                        | none => if dist < base_dist then some (dist, j) else none
                        | some (bd, _) =>
                            if dist < bd then some (dist, j) else acc) none
                    match best with
                    | none => st
                    | some (_, j) =>
                        let rs1 := rs.set ai { assigned with
                          package := none,
                          state := .IDLE, path := [], failed_paths := [] }
                        let bestr := rs1.getD j dummyRobot
                        let ps1 := updatePkg ps pid
                          (fun p => { p with assigned_to := some bestr.id })
                        let bestr1 := { bestr with package := some pid }
                        let rs2 := rs1.set j bestr1
                        let blocked := get_blocked_for_robot S obstacles ps1 rs2
                          bestr1 []
                        let bestr2 := { bestr1 with
                          path := astar bestr1.pos pkg.pickup blocked bestr1,
                          state := .TO_PICKUP, decision_mode := .NORMAL,
                          failed_paths := [], wait_count := 0 }
                        (rs2.set j bestr2, ps1)
                  else st) (robots, pkgs)

/-- `RobotManager.force_idle_robots_to_work`. -/
def force_idle_robots_to_work (S : Settings) (obstacles : List Cell)
    (astar : AStarFn) (robots : List Robot) (pkgs : Packages) :
    List Robot × Packages :=
  (List.range robots.length).foldl (fun st i =>
    let (rs, ps) := st
    let rb := rs.getD i dummyRobot
    if rb.state ≠ .IDLE then st
    else if rb.package.isSome then st
    else
      let rb1 := { rb with failed_paths := [] }
      let best := ps.foldl (fun acc e =>
        let (pid, pkg) := e
        if pkg.status ≠ .WAITING then acc
        else if pkg.assigned_to ≠ none then acc
        else
          let dist := manhattan rb1.pos pkg.pickup
          match acc with
          | none => some (dist, pid, pkg)
          | some (bd, _, _) => if dist < bd then some (dist, pid, pkg) else acc)
        none
      match best with
      | none => (rs.set i rb1, ps)
      | some (_, pid, pkg) =>
          let ps1 := updatePkg ps pid
            (fun p => { p with assigned_to := some rb1.id })
          let rb2 := { rb1 with package := some pid }
          let rs1 := rs.set i rb2
          let blocked := get_blocked_for_robot S obstacles ps1 rs1 rb2 []
          let rb3 := { rb2 with
            path := astar rb2.pos pkg.pickup blocked rb2,
            state := .TO_PICKUP, decision_mode := .NORMAL,
            failed_paths := [], wait_count := 0 }
          (rs1.set i rb3, ps1)) (robots, pkgs)

/-! ## Deadlock group detection (`detect_deadlock_group`) -/

/-- The inner scan over waiting robots (with its early `break` once a
mutual pair is recorded). -/
def detect_inner (rb : Robot) (next_pos : Cell) (waiting : List Robot)
    (group visited : List ℕ) (groups : List (List ℕ)) :
    List ℕ × List ℕ × List (List ℕ) :=
  match waiting with
  | [] => (group, visited, groups)
  | other :: rest =>
      if other.id ≠ rb.id ∧ other.pos = next_pos then
        let group' := group ++ [other.id]
        let visited' := visited ++ [other.id]
        if other.path.head? = some rb.pos then
          (group', visited', groups ++ [group'])
        else detect_inner rb next_pos rest group' visited' groups
      else detect_inner rb next_pos rest group visited groups

/-- The outer loop of `detect_deadlock_group`.  (`list(set(...))` on the
cycle chain is modelled by `dedup`; Python's set ordering is
implementation-defined.) -/
def detect_outer (robots waiting : List Robot) (pending : List Robot)
    (visited : List ℕ) (groups : List (List ℕ)) : List (List ℕ) :=
  match pending with
  | [] => groups
  | rb :: rest =>
      if rb.id ∈ visited then detect_outer robots waiting rest visited groups
      else
        let group0 := [rb.id]
        let visited0 := visited ++ [rb.id]
        let (group1, visited1, groups1) :=
          match rb.path.head? with
          | some next_pos =>
              detect_inner rb next_pos waiting group0 visited0 groups
          | none => (group0, visited0, groups)
        let groups2 :=
          if group1.length ≥ 2 then
            let chain := trace_wait_chain robots rb
            if chain.length ≥ 3 ∧ chain.head? = chain.getLast? then
              groups1 ++ [chain.dropLast.dedup]
            else groups1
          else groups1
        detect_outer robots waiting rest visited1 groups2

/-- `DeadlockResolver.detect_deadlock_group`. -/
def detect_deadlock_group (robots : List Robot) : List (List ℕ) :=
  let waiting := robots.filter (fun rb =>
    rb.wait_count > DECISION_WAIT_THRESHOLD)
  if waiting.length < 2 then [] else detect_outer robots waiting waiting [] []

/-- `DeadlockResolver.resolve_deadlock_group`. -/
def resolve_deadlock_group (S : Settings) (obstacles : List Cell)
    (dirs : ℕ → List Dir) (robots : List Robot) (group : List ℕ) :
    List Robot :=
  if group.length < 2 then robots
  else
    let best := group.foldl (fun acc rid =>
      match idxOfId robots rid with
      | none => acc
      | some j =>
          let imp := get_robot_importance (robots.getD j dummyRobot)
          match acc with
          | none => some (imp, j)
          | some (bi, _) => if imp < bi then some (imp, j) else acc) none
    match best with
    | none => robots
    | some (_, j) =>
        let rb := robots.getD j dummyRobot
        match get_emergency_move S obstacles robots (dirs rb.id) rb with
        | (some pos, rb') =>
            robots.set j { rb' with
              path := [pos], decision_mode := .FORCED,
              wait_count := 0 }
        | (none, rb') => robots.set j rb'

/-! ## The tick scheduler (`main.py`) -/

/-- `SimulationController.is_collision_free`. -/
def is_collision_free (robots : List Robot) (robot : Robot) (pos : Cell) : Bool :=
  !(robots.any (fun o => decide (o.id ≠ robot.id) && decide (o.pos = pos)))

/-- `SimulationController.is_valid_move`. -/
def is_valid_move (S : Settings) (obstacles : List Cell) (pkgs : Packages)
    (robots : List Robot) (robot : Robot) (pos : Cell)
    (reserved : List Cell) : Bool :=
  is_safe_cell S obstacles pos &&
  is_collision_free robots robot pos &&
  can_enter_dropoff pkgs robot pos &&
  can_enter_pickup pkgs robot pos &&
  decide (pos ∉ reserved)

/-- The `planned_moves` dictionary: id-keyed, insertion ordered. -/
abbrev PlannedMoves : Type := List (ℕ × Cell)

/-- Dictionary write `planned_moves[k] = v`. -/
def dictSet (pm : PlannedMoves) (k : ℕ) (v : Cell) : PlannedMoves :=
  if pm.any (fun e => e.1 == k) then
    pm.map (fun e => if e.1 = k then (k, v) else e)
  else pm ++ [(k, v)]

/-- Dictionary read `planned_moves.get(k, dflt)`. -/
def dictGet (pm : PlannedMoves) (k : ℕ) (dflt : Cell) : Cell :=
  match pm.find? (fun e => e.1 == k) with
  | some e => e.2
  | none => dflt

/-- `SimulationController.is_swap`. -/
def is_swap (robots : List Robot) (robot : Robot) (nxt : Cell)
    (pm : PlannedMoves) : Bool :=
  pm.any (fun e =>
    if e.1 = robot.id then false
    else match get_robot_by_id robots e.1 with
      | some other => decide (e.2 = robot.pos) && decide (nxt = other.pos)
      | none => false)

/-- The simulation state threaded through the per-tick phases. -/
structure SimState where
  robots : List Robot
  packages : Packages
deriving DecidableEq, Repr

/-- The yield-timeout and critical-path-evacuation tail of the per-robot
step of tick phase 3 (`main.py` lines 100–137). -/
def phase3_tail (S : Settings) (obstacles : List Cell) (corridor : Cell → ℕ)
    (astar : AStarFn) (critical_paths : List (ℕ × List Cell)) (step : ℕ)
    (rs : List Robot) (ps : Packages) (i : ℕ) (rb : Robot) :
    List Robot × Packages :=
  let rb :=
    if rb.decision_mode = .YIELDING then
      let rb := if rb.yield_start_step = 0 then
          { rb with yield_start_step := step }
        else rb
      if step - rb.yield_start_step > 10 then
        { rb with
            decision_mode := .NORMAL, yield_to := none,
            yield_start_step := 0, path := [], wait_count := 0 }
      else rb
    else { rb with yield_start_step := 0 }
  if rb.state = .IDLE ∨ rb.state = .HOME then
    if (is_in_critical_path rb critical_paths).isSome ∧
        is_near_active_dropoff ps rs rb 2 then
      match find_evacuation_spot S obstacles corridor rs rb critical_paths [] with
      | some evac_spot =>
          if manhattan rb.pos evac_spot ≤ 3 then
            let rb1 := { rb with
                evac_target := some evac_spot,
                state := .EVACUATING, evac_start_step := step }
            let blocked := get_blocked_for_robot S obstacles ps rs rb1 []
            (rs.set i { rb1 with
                path := astar rb1.pos evac_spot blocked rb1,
                wait_count := 0 }, ps)
          else (rs.set i rb, ps)
      | none => (rs.set i rb, ps)
    else (rs.set i rb, ps)
  else (rs.set i rb, ps)

/-- One per-robot step of tick phase 3 (oscillation detection, the
EVACUATING timeout, then `phase3_tail`). -/
def phase3_step (S : Settings) (obstacles : List Cell) (corridor : Cell → ℕ)
    (astar : AStarFn) (critical_paths : List (ℕ × List Cell)) (step : ℕ)
    (st : List Robot × Packages) (i : ℕ) : List Robot × Packages :=
  let (rs, ps) := st
  let rb0 := rs.getD i dummyRobot
  let (osc, rb) := detect_oscillation rb0
  if osc then
    let (rb', ps') := force_reset_stuck_state rb ps
    (rs.set i rb', ps')
  else if rb.state = .EVACUATING then
    let rb := if rb.evac_start_step = 0 then { rb with evac_start_step := step }
      else rb
    if step - rb.evac_start_step > 15 ∨ rb.evac_target = some rb.pos then
      let (rb', ps') := force_reset_stuck_state rb ps
      (rs.set i rb', ps')
    else phase3_tail S obstacles corridor astar critical_paths step rs ps i rb
  else
    phase3_tail S obstacles corridor astar critical_paths step rs ps i
      { rb with evac_start_step := 0 }

/-- The dispatch on the decisive action in the scheduler
(`main.py` lines 144–181). -/
def decisive_dispatch (S : Settings) (obstacles : List Cell) (pkgs : Packages)
    (astar : AStarFn) (robots : List Robot) (i : ℕ)
    (action : DecisiveAction) : List Robot :=
  let rb := robots.getD i dummyRobot
  match action with
  | .YIELD pos =>
      let blocked := get_blocked_for_robot S obstacles pkgs robots rb []
      let p1 := astar rb.pos pos blocked rb
      let p2 := if p1 ≠ [] ∧ p1.length > 2 then smooth_path p1 rb else p1
      let p3 := if p2 = [] then [pos] else p2
      robots.set i { rb with
          path := p3, evac_target := some pos,
          state := .EVACUATING, wait_count := 0 }
  | .RETREAT p => robots.set i { rb with path := p, wait_count := 0 }
  | .EMERGENCY c => robots.set i { rb with path := [c], wait_count := 0 }
  | .REPATH => robots.set i { rb with path := [], wait_count := 0 }
  | .WAIT => robots

/-- One per-robot step of tick phase 4 (decisive actions for robots
with `wait_count ≥ YIELD_THRESHOLD`). -/
def phase4_step (S : Settings) (obstacles : List Cell) (corridor : Cell → ℕ)
    (astar : AStarFn) (dirs : ℕ → List Dir) (st : List Robot × Packages)
    (i : ℕ) : List Robot × Packages :=
  let (rs, ps) := st
  let rb := rs.getD i dummyRobot
  if rb.wait_count ≥ YIELD_THRESHOLD then
    let (action, rs1) := make_decisive_action S obstacles corridor dirs rs i
    (decisive_dispatch S obstacles ps astar rs1 i action, ps)
  else st

/-- Planning-phase agent ordering: the robots sorted by descending
`get_robot_priority` (Python's stable `sorted(..., reverse=True)`),
represented as the list of their indices. -/
def sorted_indices (robots : List Robot) : List ℕ :=
  (List.range robots.length).insertionSort (fun i j =>
    get_robot_priority (robots.getD j dummyRobot) ≤
      get_robot_priority (robots.getD i dummyRobot))

/-- The planning target of a robot in tick phase 5. -/
def plan_target (pkgs : Packages) (rb : Robot) : Option Cell :=
  match rb.state with
  | .TO_PICKUP => rb.package.bind (fun pid =>
      (lookupPkg pkgs pid).map (fun p => p.pickup))
  | .TO_DROPOFF => rb.package.bind (fun pid =>
      (lookupPkg pkgs pid).map (fun p => p.dropoff))
  | .EVACUATING => rb.evac_target
  | _ => none

/-- The planning sub-step of tick phase 5 (`main.py` lines 190–218). -/
def phase5_plan (S : Settings) (obstacles : List Cell) (astar : AStarFn)
    (pkgs : Packages) (robots : List Robot) (rb : Robot) : Robot :=
  if (rb.state ≠ .IDLE ∧ rb.state ≠ .HOME) ∧ rb.path = [] then
    match plan_target pkgs rb with
    | some target =>
        let rb := if rb.wait_count > 2 then { rb with failed_paths := [] }
          else rb
        let blocked := get_blocked_for_robot S obstacles pkgs robots rb [] ++
          rb.failed_paths
        let p1 := astar rb.pos target blocked rb
        let p1 := if p1 ≠ [] ∧ p1.length > 2 then smooth_path p1 rb else p1
        let p2 :=
          if p1 = [] then
            let blocked_minimal := obstacles ++
              ((robots.filter (fun o => decide (o.id ≠ rb.id))).map
                (fun o => o.pos))
            let q := astar rb.pos target blocked_minimal rb
            if q ≠ [] ∧ q.length > 2 then smooth_path q rb else q
          else p1
        { rb with path := p2 }
    | none => rb
  else rb

/-- The move-prediction sub-step of tick phase 5
(`main.py` lines 220–233). -/
def phase5_predict (S : Settings) (obstacles : List Cell) (pm : PlannedMoves)
    (rb : Robot) : PlannedMoves × Robot :=
  match rb.path.head? with
  | some nxt =>
      if is_safe_cell S obstacles nxt then (dictSet pm rb.id nxt, rb)
      else (dictSet pm rb.id rb.pos,
        { rb with wait_count := rb.wait_count + 1, momentum := 0 })
  | none =>
      (dictSet pm rb.id rb.pos,
        { rb with
          wait_count := if rb.state ≠ .IDLE then rb.wait_count + 1
          else rb.wait_count,
          momentum := 0 })

/-- The request-a-package tail of the IDLE branch of tick phase 5
(`main.py` lines 258–285). -/
def phase5_request (S : Settings) (obstacles : List Cell) (astar : AStarFn)
    (rs : List Robot) (ps : Packages) (rb : Robot) : Robot × Packages :=
  match request_package S obstacles rs ps rb with
  | (some pid, ps1) =>
      let rb1 := { rb with package := some pid }
      let pickup := match lookupPkg ps1 pid with
        | some pkg => pkg.pickup
        | none => rb1.pos
      let blocked := get_blocked_for_robot S obstacles ps1 rs rb1 []
      let p1 := astar rb1.pos pickup blocked rb1
      let p1 := if p1 ≠ [] ∧ p1.length > 2 then smooth_path p1 rb1 else p1
      let p2 :=
        if p1 = [] then
          let blocked_minimal := obstacles ++
            ((rs.filter (fun o => decide (o.id ≠ rb1.id))).map (fun o => o.pos))
          let q := astar rb1.pos pickup blocked_minimal rb1
          if q ≠ [] ∧ q.length > 2 then smooth_path q rb1 else q
        else p1
      ({ rb1 with
          path := p2, state := .TO_PICKUP, decision_mode := .NORMAL,
          failed_paths := [], wait_count := 0 }, ps1)
  | (none, ps1) =>
      if rb.pos ≠ rb.home then
        let blocked := get_blocked_for_robot S obstacles ps1 rs rb []
        let p1 := astar rb.pos rb.home blocked rb
        let p1 := if p1 ≠ [] ∧ p1.length > 2 then smooth_path p1 rb else p1
        ({ rb with path := p1, state := .HOME, wait_count := 0 }, ps1)
      else (rb, ps1)

/-- The IDLE/HOME logic of tick phase 5 (`main.py` lines 235–298). -/
def phase5_idle (S : Settings) (obstacles : List Cell) (astar : AStarFn)
    (rs : List Robot) (ps : Packages) (rb : Robot) : Robot × Packages :=
  if rb.state = .IDLE then
    let rb := { rb with failed_paths := [] }
    match rb.package with
    | some pid =>
        (match lookupPkg ps pid with
         | some pkg =>
             if pkg.status = .PICKED then
               let rb1 := { rb with state := .TO_DROPOFF }
               let blocked := get_blocked_for_robot S obstacles ps rs rb1 []
               let p1 := astar rb1.pos pkg.dropoff blocked rb1
               let p1 := if p1 ≠ [] ∧ p1.length > 2 then smooth_path p1 rb1
                 else p1
               ({ rb1 with path := p1, wait_count := 0 }, ps)
             else if pkg.status = .WAITING then
               let rb1 := { rb with state := .TO_PICKUP }
               let blocked := get_blocked_for_robot S obstacles ps rs rb1 []
               let p1 := astar rb1.pos pkg.pickup blocked rb1
               let p1 := if p1 ≠ [] ∧ p1.length > 2 then smooth_path p1 rb1
                 else p1
               ({ rb1 with path := p1, wait_count := 0 }, ps)
             else phase5_request S obstacles astar rs ps rb
         | none => phase5_request S obstacles astar rs ps rb)
    | none => phase5_request S obstacles astar rs ps rb
  else if rb.state = .HOME then
    if rb.pos = rb.home then
      ({ rb with
          state := .IDLE, path := [], decision_mode := .NORMAL,
          failed_paths := [], wait_count := 0 }, ps)
    else if rb.path = [] then
      let blocked := get_blocked_for_robot S obstacles ps rs rb []
      let p1 := astar rb.pos rb.home blocked rb
      let p1 := if p1 ≠ [] ∧ p1.length > 2 then smooth_path p1 rb else p1
      ({ rb with path := p1 }, ps)
    else (rb, ps)
  else (rb, ps)

/-- Tick phase 5 over the priority-sorted index order: planning, move
prediction, and the IDLE/HOME logic, accumulating `planned_moves`. -/
def plan_phase (S : Settings) (obstacles : List Cell) (astar : AStarFn)
    (order : List ℕ) (robots : List Robot) (pkgs : Packages) :
    List Robot × Packages × PlannedMoves :=
  order.foldl (fun st i =>
    let (rs, ps, pm) := st
    let rb := rs.getD i dummyRobot
    let rb := phase5_plan S obstacles astar ps rs rb
    let (pm, rb) := phase5_predict S obstacles pm rb
    let (rb, ps) := phase5_idle S obstacles astar rs ps rb
    (rs.set i rb, ps, pm)) (robots, pkgs, [])

/-- The package pointed to by the robot's `package` field. -/
def pkg_of (ps : Packages) (rb : Robot) : Option (ℕ × Package) :=
  match rb.package with
  | some pid => (lookupPkg ps pid).map (fun p => (pid, p))
  | none => none

/-- The task-completion transitions after a committed move
(`main.py` lines 369–418). -/
def exec_task_transitions (S : Settings) (obstacles : List Cell)
    (astar : AStarFn) (rs : List Robot) (ps : Packages)
    (reserved : List Cell) (rb : Robot) : Robot × Packages :=
  let home_evac : Robot × Packages :=
    if rb.state = .HOME ∧ rb.pos = rb.home then
      ({ rb with
          state := .IDLE, path := [], decision_mode := .NORMAL,
          failed_paths := [], wait_count := 0 }, ps)
    else if rb.state = .EVACUATING ∧ rb.evac_target = some rb.pos then
      ({ rb with
          state := .IDLE, evac_target := none, path := [],
          decision_mode := .NORMAL, yield_to := none }, ps)
    else (rb, ps)
  match pkg_of ps rb with
  | some (pid, pkg) =>
      if rb.state = .TO_PICKUP ∧ rb.pos = pkg.pickup then
        let ps1 := updatePkg ps pid (fun p => { p with status := .PICKED })
        let blocked := get_blocked_for_robot S obstacles ps1 rs rb reserved ++
          rb.failed_paths
        let p1 := astar rb.pos pkg.dropoff blocked rb
        let p1 := if p1 ≠ [] ∧ p1.length > 2 then smooth_path p1 rb else p1
        ({ rb with
            path := p1, state := .TO_DROPOFF, decision_mode := .NORMAL,
            failed_paths := [] }, ps1)
      else if rb.state = .TO_DROPOFF ∧ rb.pos = pkg.dropoff then
        let ps1 := updatePkg ps pid
          (fun p => { p with status := .DELIVERED, assigned_to := none })
        let rb1 := { rb with package := none }
        let blocked := get_blocked_for_robot S obstacles ps1 rs rb1 reserved ++
          rb1.failed_paths
        let p1 := astar rb1.pos rb1.home blocked rb1
        let p1 := if p1 ≠ [] ∧ p1.length > 2 then smooth_path p1 rb1 else p1
        ({ rb1 with
            path := p1, state := .HOME, decision_mode := .NORMAL,
            failed_paths := [] }, ps1)
      else home_evac
  | none => home_evac

/-- One per-robot step of tick phase 6 (arbitration and commit,
`main.py` lines 300–418). -/
def exec_step (S : Settings) (obstacles : List Cell) (astar : AStarFn)
    (pm : PlannedMoves) (st : List Robot × Packages × List Cell) (i : ℕ) :
    List Robot × Packages × List Cell :=
  let (rs, ps, reserved) := st
  let rb := rs.getD i dummyRobot
  let nxt := dictGet pm rb.id rb.pos
  let old_pos := rb.pos
  if nxt = rb.pos then
    (rs.set i { rb with
        wait_count := rb.wait_count + 1,
        momentum := rb.momentum - 1 }, ps, reserved ++ [rb.pos])
  else if is_valid_move S obstacles ps rs rb nxt reserved = false then
    let rb1 := { rb with
        wait_count := rb.wait_count + 1,
        failed_paths := rb.failed_paths ++ [nxt], momentum := 0 }
    let rb2 := if is_safe_cell S obstacles nxt ∧
        (can_enter_dropoff ps rb1 nxt = false ∨
          can_enter_pickup ps rb1 nxt = false) then
        { rb1 with path := [] }
      else rb1
    (rs.set i rb2, ps, reserved ++ [rb.pos])
  else if is_swap rs rb nxt pm then
    (rs.set i { rb with
        wait_count := rb.wait_count + 1, momentum := 0 },
      ps, reserved ++ [rb.pos])
  else if rs.any (fun o => decide (o.id ≠ rb.id) && decide (o.pos = nxt)) ∨
      nxt ∈ reserved then
    (rs.set i { rb with
        wait_count := rb.wait_count + 1,
        momentum := rb.momentum - 1 }, ps, reserved ++ [rb.pos])
  else
    let new_dir := get_direction old_pos nxt
    let rb1 := if is_turn rb.last_dir new_dir ∧
        rb.last_dir ≠ ((0 : ℤ), (0 : ℤ)) then
        { rb with
            total_turns := rb.total_turns + 1,
            momentum := rb.momentum - 2 }
      else { rb with momentum := min 5 (rb.momentum + 1) }
    let rb2 := { rb1 with
        last_dir := new_dir, pos := nxt,
        position_history := [], path := rb1.path.tail, wait_count := 0 }
    let reserved1 := reserved ++ [nxt]
    let rb3 := if rb2.decision_mode ≠ .NORMAL then
        if rb2.state ≠ .EVACUATING ∨ rb2.evac_target = some rb2.pos then
          { rb2 with decision_mode := .NORMAL, yield_to := none }
        else rb2
      else rb2
    let (rb4, ps1) := exec_task_transitions S obstacles astar rs ps reserved1 rb3
    (rs.set i rb4, ps1, reserved1)

/-- One per-robot step of tick phase 7 (the final path check,
`main.py` lines 420–450). -/
def phase7_step (S : Settings) (obstacles : List Cell) (astar : AStarFn)
    (ps : Packages) (reserved : List Cell) (rs : List Robot) (i : ℕ) :
    List Robot :=
  let rb := rs.getD i dummyRobot
  if rb.state = .IDLE then
    if rb.package = none ∧ rb.pos ≠ rb.home then
      let blocked := get_blocked_for_robot S obstacles ps rs rb reserved
      let p1 := astar rb.pos rb.home blocked rb
      let p1 := if p1 ≠ [] ∧ p1.length > 2 then smooth_path p1 rb else p1
      rs.set i { rb with path := p1, state := .HOME }
    else rs
  else
    if rb.path = [] ∧ rb.wait_count > YIELD_THRESHOLD then
      let target : Option Cell :=
        match rb.state with
        | .TO_PICKUP => rb.package.bind (fun pid =>
            (lookupPkg ps pid).map (fun p => p.pickup))
        | .TO_DROPOFF => rb.package.bind (fun pid =>
            (lookupPkg ps pid).map (fun p => p.dropoff))
        | .HOME => some rb.home
        | .EVACUATING => rb.evac_target
        | .IDLE => none
      match target with
      | some t =>
          let blocked := get_blocked_for_robot S obstacles ps rs rb reserved ++
            rb.failed_paths
          let new_path := astar rb.pos t blocked rb
          if new_path ≠ [] then
            rs.set i { rb with
                path := new_path, wait_count := 0,
                failed_paths := [] }
          else rs
      | none => rs
    else rs

/-- The win condition of the scheduler (`main.py` lines 455–465): all
packages DELIVERED and every robot IDLE, or HOME standing at home. -/
def win_condition (robots : List Robot) (pkgs : Packages) : Bool :=
  pkgs.all (fun e => decide (e.2.status = .DELIVERED)) &&
  robots.all (fun rb =>
    (decide (rb.state = .IDLE) || decide (rb.state = .HOME)) &&
    (decide (rb.state ≠ .HOME) || decide (rb.pos = rb.home)))

/-- Tick phase 1 (maintenance): robot-state repair, orphaned
assignments, stuck-package reassignment, idle pull. -/
def tick_phase1 (S : Settings) (obstacles : List Cell) (astar : AStarFn)
    (step : ℕ) (st : SimState) : List Robot × Packages :=
  let rs := fix_robot_states S obstacles astar st.robots st.packages
  let ps := st.packages
  let ps := if step % ORPHAN_CHECK_INTERVAL = 0 then
      cleanup_orphaned_assignments rs ps
    else ps
  let (rs, ps) := if step % IDLE_RECHECK_INTERVAL = 0 then
      let (rs1, ps1) := reassign_stuck_packages S obstacles astar rs ps
      force_idle_robots_to_work S obstacles astar rs1 ps1
    else (rs, ps)
  force_idle_robots_to_work S obstacles astar rs ps

/-- Tick phase 2: deadlock detection and group resolution. -/
def tick_phase2 (S : Settings) (obstacles : List Cell)
    (dirs : ℕ → List Dir) (rs : List Robot) : List Robot :=
  (detect_deadlock_group rs).foldl (fun rs' g =>
    resolve_deadlock_group S obstacles dirs rs' g) rs

/-- Tick phases 3 and 4: oscillation, timeouts, critical-path
evacuation, then the decisive actions. -/
def tick_phase34 (S : Settings) (obstacles : List Cell)
    (corridor : Cell → ℕ) (astar : AStarFn) (dirs : ℕ → List Dir)
    (step : ℕ) (st : List Robot × Packages) : List Robot × Packages :=
  let critical_paths := get_critical_paths st.1
  let st := (List.range st.1.length).foldl
    (phase3_step S obstacles corridor astar critical_paths step) st
  (List.range st.1.length).foldl
    (phase4_step S obstacles corridor astar dirs) st

/-- Tick phases 5 and 6: plan, arbitrate, commit. -/
def tick_phase56 (S : Settings) (obstacles : List Cell) (astar : AStarFn)
    (st : List Robot × Packages) : List Robot × Packages × List Cell :=
  let order := sorted_indices st.1
  let (rs, ps, pm) := plan_phase S obstacles astar order st.1 st.2
  order.foldl (exec_step S obstacles astar pm) (rs, ps, [])

/-- Tick phase 7: the final path check. -/
def tick_phase7 (S : Settings) (obstacles : List Cell) (astar : AStarFn)
    (st : List Robot × Packages × List Cell) : SimState :=
  { robots := (List.range st.1.length).foldl
      (phase7_step S obstacles astar st.2.1 st.2.2) st.1,
    packages := st.2.1 }

/-- One full tick of the scheduler (`main.py` lines 45–450), with the
pathfinder `astar` and the shuffled emergency direction orders `dirs`
as parameters. -/
def tick (S : Settings) (obstacles : List Cell) (astar : AStarFn)
    (dirs : ℕ → List Dir) (step : ℕ) (st : SimState) : SimState :=
  let corridor := corridor_map S obstacles
  let (rs, ps) := tick_phase1 S obstacles astar step st
  let rs := tick_phase2 S obstacles dirs rs
  tick_phase7 S obstacles astar
    (tick_phase56 S obstacles astar
      (tick_phase34 S obstacles corridor astar dirs step (rs, ps)))

/-- `n` consecutive ticks of the scheduler, starting at step counter
`step` (the per-iteration prefix of the `main` loop, without the exit
checks). -/
def run_ticks (S : Settings) (obstacles : List Cell) (astar : AStarFn)
    (dirs : ℕ → List Dir) : ℕ → ℕ → SimState → SimState
  | 0, _, st => st
  | n + 1, step, st =>
      run_ticks S obstacles astar dirs n (step + 1)
        (tick S obstacles astar dirs step st)

/-- How a run of `main` ended. -/
inductive EndReason where
  | validation | normal | timeout
deriving DecidableEq, Repr

/-- The scheduler loop of `main` (`main.py` lines 45–474): each
iteration runs a tick, then checks the win condition, then the
`MAX_STEPS` bound.  Both `break` sites fall out of `main` normally, so
both produce process exit code `0`; the fuel `maxSteps + 1` (with the
step counter starting at `1`) always reaches one of the two exits. -/
def sim_loop (S : Settings) (obstacles : List Cell) (astar : AStarFn)
    (dirs : ℕ → List Dir) : ℕ → ℕ → SimState → ℕ × EndReason
  | 0, _, _ => (0, .timeout)
  | fuel + 1, step, st =>
      let st' := tick S obstacles astar dirs step st
      if win_condition st'.robots st'.packages then (0, .normal)
      else if step > S.maxSteps then (0, .timeout)
      else sim_loop S obstacles astar dirs fuel (step + 1) st'

/-! ## Configuration loading and validation
(`controllers/simulation_controller.py`) -/

/-- A robot entry of the JSON config (`{id?, name?, pos}`). -/
structure RobotCfg where
  rid : Option ℕ
  pos : Cell
deriving DecidableEq, Repr

/-- A package entry of the JSON config. -/
structure PackageCfg where
  pickup : Cell
  dropoff : Cell
deriving DecidableEq, Repr

/-- The optional `settings` overrides of the JSON config. -/
structure SettingsCfg where
  rows : Option ℤ
  cols : Option ℤ
  max_steps : Option ℕ
deriving DecidableEq, Repr

/-- A parsed JSON configuration. -/
structure Config where
  settings : SettingsCfg
  walls : List (ℤ × ℤ × ℤ × ℤ)
  robots : List RobotCfg
  packages : List PackageCfg
deriving DecidableEq, Repr

/-- `_load_settings_from_config`. -/
def load_settings_from_config (cfg : Config) : Settings :=
  {
      rows := cfg.settings.rows.getD defaultSettings.rows,
      cols := cfg.settings.cols.getD defaultSettings.cols,
      maxSteps := cfg.settings.max_steps.getD defaultSettings.maxSteps }

/-- `_init_obstacles`. -/
def init_obstacles (cfg : Config) : List Cell :=
  cfg.walls.foldl (fun acc w => acc ++ create_wall w) []

/-- `_init_robots`: a missing id defaults to the list index plus one;
no uniqueness of ids or positions is checked. -/
def init_robots (cfg : Config) : List Robot :=
  cfg.robots.enum.map (fun e => mkRobot (e.2.rid.getD (e.1 + 1)) e.2.pos)

/-- `_init_packages`: the dictionary key is the list index. -/
def init_packages (cfg : Config) : Packages :=
  cfg.packages.enum.map (fun e =>
    (e.1, {
        pickup := e.2.pickup, dropoff := e.2.dropoff,
        status := .WAITING, assigned_to := none }))

/-- The error messages `_validate_config` can produce. -/
inductive ConfigError where
  | robotOut (pos : Cell)
  | robotWall (pos : Cell)
  | pickupOut (pos : Cell)
  | pickupWall (pos : Cell)
  | dropoffOut (pos : Cell)
  | dropoffWall (pos : Cell)
deriving DecidableEq, Repr

/-- `_validate_config`: an entry is flagged exactly when one of its
coordinates is out of bounds or lies inside a wall. -/
def validate_config (S : Settings) (obstacles : List Cell) (cfg : Config) :
    List ConfigError :=
  cfg.robots.foldl (fun errs rc =>
    let errs := if in_bounds S rc.pos.1 rc.pos.2 = false then
        errs ++ [.robotOut rc.pos]
      else errs
    if rc.pos ∈ obstacles then errs ++ [.robotWall rc.pos] else errs) [] ++
  cfg.packages.foldl (fun errs pc =>
    let errs := if in_bounds S pc.pickup.1 pc.pickup.2 = false then
        errs ++ [.pickupOut pc.pickup]
      else errs
    let errs := if pc.pickup ∈ obstacles then errs ++ [.pickupWall pc.pickup]
      else errs
    let errs := if in_bounds S pc.dropoff.1 pc.dropoff.2 = false then
        errs ++ [.dropoffOut pc.dropoff]
      else errs
    if pc.dropoff ∈ obstacles then errs ++ [.dropoffWall pc.dropoff]
    else errs) []

/-- The errors `_validate_config` produces for one robot entry. -/
def robot_errors (S : Settings) (obstacles : List Cell) (rc : RobotCfg) :
    List ConfigError :=
  (if in_bounds S rc.pos.1 rc.pos.2 = false then [ConfigError.robotOut rc.pos]
   else []) ++
  (if rc.pos ∈ obstacles then [ConfigError.robotWall rc.pos] else [])

/-- The errors `_validate_config` produces for one package entry. -/
def package_errors (S : Settings) (obstacles : List Cell) (pc : PackageCfg) :
    List ConfigError :=
  (if in_bounds S pc.pickup.1 pc.pickup.2 = false then
    [ConfigError.pickupOut pc.pickup] else []) ++
  (if pc.pickup ∈ obstacles then [ConfigError.pickupWall pc.pickup] else []) ++
  (if in_bounds S pc.dropoff.1 pc.dropoff.2 = false then
    [ConfigError.dropoffOut pc.dropoff] else []) ++
  (if pc.dropoff ∈ obstacles then [ConfigError.dropoffWall pc.dropoff] else [])

/-- `main`: load, validate (exit code 1 on errors), then run the
scheduler loop starting at step 1. -/
def runMain (astar : AStarFn) (dirs : ℕ → List Dir) (cfg : Config) :
    ℕ × EndReason :=
  let S := load_settings_from_config cfg
  let obstacles := init_obstacles cfg
  let robots := init_robots cfg
  let pkgs := init_packages cfg
  if validate_config S obstacles cfg ≠ [] then (1, .validation)
  else sim_loop S obstacles astar dirs (S.maxSteps + 1) 1
    { robots := robots, packages := pkgs }

/-! ## The pathfinder clock (spec-modelled) -/

/-- The pathfinder state advanced once per tick. -/
structure PathfinderClock where
  current_step : ℕ
  reservation_table : ReservationTable

/-- Modelled from the spec: `SimulationController.update_pathfinder_step`
is called at the top of every tick (`main.py` line 49, before
maintenance and planning) but its definition is not among the sources —
only its caller and its tests are.  Per the spec it must "Advance
pathfinder clock; purge old reservations", i.e. set the pathfinder's
`current_step` and purge every booking with tick below it via
`ReservationTable.clear_old`. -/
def update_pathfinder_step (step : ℕ) (pf : PathfinderClock) :
    PathfinderClock :=
  {
      current_step := step,
      reservation_table := clear_old step pf.reservation_table }

/-! ## Specification-side definitions used to state the claims -/

/-- The effective remaining path length used by the tie-break of
`decide_who_yields`: an empty path counts as `999`. -/
def effLen (r : Robot) : ℕ :=
  if r.path ≠ [] then r.path.length else 999

/-- The importance score exactly as the claim words it:
`stateBase + min(500, 500 − len(path)) ×[state=TO_DROPOFF] +
momentum×20 + wait_count×10`, with the path-length bonus applied to a
TO_DROPOFF agent regardless of its `package` field or of an empty
path. -/
def spec_importance (r : Robot) : ℤ :=
  (match r.state with
   | .TO_DROPOFF => 1000
   | .TO_PICKUP => 500
   | .HOME => 100
   | .EVACUATING => 50
   | .IDLE => 0) +
  (if r.state = .TO_DROPOFF then min 500 (500 - (r.path.length : ℤ)) else 0) +
  (r.momentum : ℤ) * 20 +
  (r.wait_count : ℤ) * 10

/-- The importance formula amended to match the code: the path-length
bonus requires a non-null `package` and a non-empty `path`, and it is
`500 − min(len(path), 500)` (clamped at zero for paths longer than 500
cells). -/
def spec_importance_amended (r : Robot) : ℤ :=
  (match r.state with
   | .TO_DROPOFF => 1000
   | .TO_PICKUP => 500
   | .HOME => 100
   | .EVACUATING => 50
   | .IDLE => 0) +
  (if r.state = .TO_DROPOFF ∧ r.package.isSome ∧ r.path ≠ [] then
      500 - min (r.path.length : ℤ) 500
    else 0) +
  (r.momentum : ℤ) * 20 +
  (r.wait_count : ℤ) * 10

/-- The observable `(id, pos)` pairs of the agent list; the phases of a
tick other than the execute phase never change them. -/
def obsOf (robots : List Robot) : List (ℕ × Cell) :=
  robots.map (fun r => (r.id, r.pos))

/-- Mutual exclusion of agent cells: agents with different ids never
share a cell. -/
def mutual_exclusion (robots : List Robot) : Prop :=
  ∀ a ∈ robots, ∀ b ∈ robots, a.id ≠ b.id → a.pos ≠ b.pos

/-- Pairwise distinctness of the agent ids. -/
def distinct_ids (robots : List Robot) : Prop :=
  robots.Pairwise (fun a b => a.id ≠ b.id)

/-- Pairwise distinctness of the agent cells. -/
def distinct_pos (robots : List Robot) : Prop :=
  robots.Pairwise (fun a b => a.pos ≠ b.pos)

instance (robots : List Robot) : Decidable (distinct_ids robots) := by
  unfold distinct_ids
  infer_instance

instance (robots : List Robot) : Decidable (distinct_pos robots) := by
  unfold distinct_pos
  infer_instance

instance (robots : List Robot) : Decidable (mutual_exclusion robots) := by
  unfold mutual_exclusion
  infer_instance

/-! ## Characterisation lemmas for the reservation table operations -/

theorem reserveList_reservations (robot_id : ℕ) (slots : List (Cell × ℕ))
    (T : ReservationTable) (t : ℕ) (p : Cell) :
    (reserveList robot_id slots T).reservations t p =
      if (p, t) ∈ slots then some robot_id else T.reservations t p := by
  induction slots generalizing T with
  | nil => simp [reserveList]
  | cons s rest ih =>
      simp only [reserveList, List.foldl_cons] at *
      rw [ih]
      by_cases hmem : (p, t) ∈ rest
      · simp [hmem]
      · by_cases hs : (p, t) = s
        · subst hs
          simp [hmem, reserve]
        · have : ¬((p, t) ∈ s :: rest) := by
            simp [List.mem_cons, hs, hmem]
          simp only [hmem, if_false, this, if_false]
          simp only [reserve]
          have : ¬(t = s.2 ∧ p = s.1) := by
            intro h
            exact hs (by cases s; simp_all)
          simp [this]

theorem reserveList_robot_reservations (robot_id : ℕ) (slots : List (Cell × ℕ))
    (T : ReservationTable) (r : ℕ) :
    (reserveList robot_id slots T).robot_reservations r =
      if r = robot_id then T.robot_reservations r ++ slots
      else T.robot_reservations r := by
  induction slots generalizing T with
  | nil => simp [reserveList]
  | cons s rest ih =>
      simp only [reserveList, List.foldl_cons] at *
      rw [ih]
      by_cases hr : r = robot_id
      · simp [hr, reserve]
      · simp [hr, reserve]

/-- Deleting a list of slots (the loop of `clear_robot`), acting on the
raw reservations function. -/
def deleteList (robot_id : ℕ) (slots : List (Cell × ℕ))
    (f : ℕ → Cell → Option ℕ) : ℕ → Cell → Option ℕ :=
  slots.foldl (fun f' s => delete_if_held robot_id s f') f

theorem deleteList_eval (robot_id : ℕ) (slots : List (Cell × ℕ))
    (f : ℕ → Cell → Option ℕ) (t : ℕ) (p : Cell) :
    deleteList robot_id slots f t p =
      if (p, t) ∈ slots ∧ f t p = some robot_id then none else f t p := by
  induction slots generalizing f with
  | nil => simp [deleteList]
  | cons s rest ih =>
      simp only [deleteList, List.foldl_cons] at *
      rw [ih]
      by_cases hs : (p, t) = s
      · subst hs
        by_cases hf : f t p = some robot_id
        · have hg : delete_if_held robot_id (p, t) f =
              fun t' p' => if t' = t ∧ p' = p then none else f t' p' := by
            simp [delete_if_held, hf]
          rw [hg]
          simp [hf]
        · have hg : delete_if_held robot_id (p, t) f = f := by
            simp [delete_if_held, hf]
          rw [hg]
          simp [hf]
      · have hkey : ¬(t = (s.2 : ℕ) ∧ p = s.1) := by
          intro h
          exact hs (by cases s; simp_all)
        have heval : delete_if_held robot_id s f t p = f t p := by
          simp only [delete_if_held]
          by_cases hheld : f s.2 s.1 = some robot_id
          · simp [hheld, hkey]
          · simp [hheld]
        rw [heval]
        have hmem : ((p, t) ∈ s :: rest) ↔ ((p, t) ∈ rest) := by
          simp [List.mem_cons, hs]
        by_cases hrest : (p, t) ∈ rest ∧ f t p = some robot_id
        · simp [hrest.1, hrest.2, hmem]
        · rw [if_neg hrest, if_neg]
          intro h
          exact hrest ⟨hmem.mp h.1, h.2⟩

theorem clear_robot_reservations (robot_id : ℕ) (T : ReservationTable)
    (t : ℕ) (p : Cell) :
    (clear_robot robot_id T).reservations t p =
      if (p, t) ∈ T.robot_reservations robot_id ∧
          T.reservations t p = some robot_id then none
      else T.reservations t p := by
  have := deleteList_eval robot_id (T.robot_reservations robot_id)
    T.reservations t p
  simpa [clear_robot, deleteList] using this

/-! ## Claim C2 -/

/-- C2: at the start of every tick the scheduler advances the pathfinder
clock (`update_pathfinder_step`, the first statement of the tick loop)
and purges every booking with tick below the current one, so that
afterwards `is_reserved(cell, t)` is false for every cell and every
`t < current tick` (for any `exclude` argument). -/
theorem c2_clock_purges_old_bookings (pf : PathfinderClock) (step : ℕ)
    (pos : Cell) (t : ℕ) (ex : Option ℕ) (h : t < step) :
    is_reserved (update_pathfinder_step step pf).reservation_table pos t ex =
      false := by
  simp [update_pathfinder_step, clear_old, is_reserved, h]

/-- Witness for C2 at a concrete table holding a stale booking. -/
theorem c2_clock_purges_old_bookings_witness :
    (0 : ℕ) < 1 ∧
    is_reserved (update_pathfinder_step 1
        ⟨0, reserve 7 ((2 : ℤ), (3 : ℤ)) 0 ReservationTable.empty⟩).reservation_table
      ((2 : ℤ), (3 : ℤ)) 0 none = false :=
  ⟨by decide,
    c2_clock_purges_old_bookings
      ⟨0, reserve 7 ((2 : ℤ), (3 : ℤ)) 0 ReservationTable.empty⟩ 1
      ((2 : ℤ), (3 : ℤ)) 0 none (by decide)⟩

/-! ## Claim C5 -/

/-- C5 counterexample: agent 2 books `(0,0)` at tick 5; agent 1 then
runs `reserve_path` over the single cell `(0,0)` starting at tick 5
(overwriting agent 2's booking) followed by `clear_agent`.  The slot
ends up empty, not restored to agent 2, so the round trip does not
restore the pre-reserve state. -/
theorem c5_counterexample :
    get_reserved_by (reserve 2 ((0 : ℤ), (0 : ℤ)) 5 ReservationTable.empty)
        ((0 : ℤ), (0 : ℤ)) 5 = some 2 ∧
    get_reserved_by
        (clear_robot 1 (reserve_path 1 [((0 : ℤ), (0 : ℤ))] 5
          (reserve 2 ((0 : ℤ), (0 : ℤ)) 5 ReservationTable.empty)))
        ((0 : ℤ), (0 : ℤ)) 5 = none := by
  constructor
  · decide
  · decide

/-- C5 amended: `reserve_path(a, p, t)` followed by `clear_agent(a)`
restores every `is_reserved` and `get_reserver` answer to the
pre-reserve state, provided agent `a` holds no bookings beforehand and
none of the slots the call books (the path cells at their ticks and the
terminal dwell) is already booked — in particular none is booked by
another agent. -/
theorem c5_reserve_path_clear_roundtrip (T : ReservationTable) (a : ℕ)
    (path : List Cell) (start_time : ℕ)
    (hA : T.robot_reservations a = [])
    (hFree : ∀ s ∈ pathSlots path start_time,
      T.reservations s.2 s.1 = none) :
    ∀ pos t ex,
      is_reserved (clear_robot a (reserve_path a path start_time T)) pos t ex =
        is_reserved T pos t ex ∧
      get_reserved_by (clear_robot a (reserve_path a path start_time T)) pos t =
        get_reserved_by T pos t := by
  have key : ∀ pos t,
      (clear_robot a (reserve_path a path start_time T)).reservations t pos =
        T.reservations t pos := by
    intro pos t
    have hres : (clear_robot a T).reservations = T.reservations := by
      simp [clear_robot, hA]
    have hrrA : (reserveList a (pathSlots path start_time)
        (clear_robot a T)).robot_reservations a = pathSlots path start_time := by
      rw [reserveList_robot_reservations]
      simp [clear_robot]
    rw [reserve_path, clear_robot_reservations, hrrA,
      reserveList_reservations, hres]
    by_cases hmem : (pos, t) ∈ pathSlots path start_time
    · have hfree := hFree (pos, t) hmem
      simp only [hmem, if_true, and_true]
      simp [hfree]
    · simp [hmem]
  intro pos t ex
  refine ⟨?_, ?_⟩
  · simp [is_reserved, key]
  · simp [get_reserved_by, key]

/-- Witness for the amended C5: a fresh table holding an unrelated
booking by agent 2 at `(5,5)` tick 99 survives agent 1's
`reserve_path`/`clear_agent` round trip over a two-cell path. -/
theorem c5_reserve_path_clear_roundtrip_witness :
    (reserve 2 ((5 : ℤ), (5 : ℤ)) 99
        ReservationTable.empty).robot_reservations 1 = [] ∧
    is_reserved
        (clear_robot 1 (reserve_path 1 [((0 : ℤ), (0 : ℤ)), ((0 : ℤ), (1 : ℤ))] 3
          (reserve 2 ((5 : ℤ), (5 : ℤ)) 99 ReservationTable.empty)))
        ((5 : ℤ), (5 : ℤ)) 99 none =
      is_reserved (reserve 2 ((5 : ℤ), (5 : ℤ)) 99 ReservationTable.empty)
        ((5 : ℤ), (5 : ℤ)) 99 none :=
  ⟨by decide,
    (c5_reserve_path_clear_roundtrip
      (reserve 2 ((5 : ℤ), (5 : ℤ)) 99 ReservationTable.empty) 1
      [((0 : ℤ), (0 : ℤ)), ((0 : ℤ), (1 : ℤ))] 3 (by decide) (by decide)
      ((5 : ℤ), (5 : ℤ)) 99 none).1⟩

/-! ## Claim C10 -/

/-- C10: `clear_robot(a)` removes only bookings whose current holder is
`a`; every booking currently held by a different agent `b` is left
unchanged — also when a stale `(cell, tick)` pair remains in `a`'s
per-agent list because `b` overwrote `a`'s earlier reservation there. -/
theorem c10_clear_robot_preserves_other_holders (T : ReservationTable)
    (a b : ℕ) (pos : Cell) (t : ℕ) (hab : b ≠ a)
    (hb : get_reserved_by T pos t = some b) :
    get_reserved_by (clear_robot a T) pos t = some b ∧
    ∀ ex, is_reserved (clear_robot a T) pos t ex = is_reserved T pos t ex := by
  have key : (clear_robot a T).reservations t pos = T.reservations t pos := by
    rw [clear_robot_reservations]
    have hcond : ¬((pos, t) ∈ T.robot_reservations a ∧
        T.reservations t pos = some a) := by
      rintro ⟨-, h2⟩
      have hb' : T.reservations t pos = some b := hb
      rw [hb'] at h2
      exact hab (Option.some.injEq .. ▸ (by simpa using h2))
    simp [hcond]
  refine ⟨?_, fun ex => ?_⟩
  · have hb' : T.reservations t pos = some b := hb
    show (clear_robot a T).reservations t pos = some b
    rw [key, hb']
  · simp [is_reserved, key]

/-- Witness for C10: agent 2 overwrites agent 1's booking at `(0,0)`
tick 5; clearing agent 1 (whose stale pair still lists that slot) keeps
agent 2's booking. -/
theorem c10_clear_robot_preserves_other_holders_witness :
    (2 : ℕ) ≠ 1 ∧
    get_reserved_by
        (clear_robot 1 (reserve 2 ((0 : ℤ), (0 : ℤ)) 5
          (reserve 1 ((0 : ℤ), (0 : ℤ)) 5 ReservationTable.empty)))
        ((0 : ℤ), (0 : ℤ)) 5 = some 2 :=
  ⟨by decide,
    (c10_clear_robot_preserves_other_holders
      (reserve 2 ((0 : ℤ), (0 : ℤ)) 5
        (reserve 1 ((0 : ℤ), (0 : ℤ)) 5 ReservationTable.empty))
      1 2 ((0 : ℤ), (0 : ℤ)) 5 (by decide) (by decide)).1⟩

/-! ## Claim C7 -/

/-- C7 counterexample: a TO_DROPOFF robot with a one-cell path but a
null `package` scores `1000` in the code (no path-length bonus), while
the claim's formula gives `1000 + min(500, 499) = 1499`. -/
theorem c7_counterexample :
    (get_robot_importance { mkRobot 4 ((0 : ℤ), (0 : ℤ)) with
        state := RState.TO_DROPOFF, path := [((0 : ℤ), (1 : ℤ))] } : ℤ) = 1000 ∧
    spec_importance { mkRobot 4 ((0 : ℤ), (0 : ℤ)) with
        state := RState.TO_DROPOFF, path := [((0 : ℤ), (1 : ℤ))] } = 1499 ∧
    (get_robot_importance { mkRobot 4 ((0 : ℤ), (0 : ℤ)) with
        state := RState.TO_DROPOFF, path := [((0 : ℤ), (1 : ℤ))] } : ℤ) ≠
      spec_importance { mkRobot 4 ((0 : ℤ), (0 : ℤ)) with
        state := RState.TO_DROPOFF, path := [((0 : ℤ), (1 : ℤ))] } := by
  refine ⟨by decide, by decide, by decide⟩

/-- C7 amended: the importance score equals
`stateBase + (500 − min(len(path), 500)) ×[state = TO_DROPOFF ∧ package ≠ null ∧ path ≠ []]
+ 20 × momentum + 10 × wait_count`: the TO_DROPOFF path-length bonus is
granted only with a non-null package and a non-empty path, and is
clamped at zero for paths longer than 500. -/
theorem c7_importance_formula (r : Robot) :
    (get_robot_importance r : ℤ) = spec_importance_amended r := by
  unfold get_robot_importance spec_importance_amended
  cases hs : r.state <;> simp [hs] <;> split_ifs <;> push_cast <;> omega

/-! ## Claim C4 -/

/-- C4 counterexample: two robots whose importances differ by 10 (so
not equal), where the robot with the strictly higher importance is the
one told to yield, because inside the 100-point band the tie-break by
longer remaining path decides. -/
theorem c4_counterexample :
    decide_who_yields
        { mkRobot 1 ((0 : ℤ), (0 : ℤ)) with
          wait_count := 1,
          path := [((0 : ℤ), (1 : ℤ)), ((0 : ℤ), (2 : ℤ)), ((0 : ℤ), (3 : ℤ)),
            ((0 : ℤ), (4 : ℤ)), ((0 : ℤ), (5 : ℤ))] }
        { mkRobot 2 ((5 : ℤ), (5 : ℤ)) with path := [((5 : ℤ), (6 : ℤ))] } =
      { mkRobot 1 ((0 : ℤ), (0 : ℤ)) with
        wait_count := 1,
        path := [((0 : ℤ), (1 : ℤ)), ((0 : ℤ), (2 : ℤ)), ((0 : ℤ), (3 : ℤ)),
          ((0 : ℤ), (4 : ℤ)), ((0 : ℤ), (5 : ℤ))] } ∧
    get_robot_importance
        { mkRobot 2 ((5 : ℤ), (5 : ℤ)) with path := [((5 : ℤ), (6 : ℤ))] } <
      get_robot_importance
        { mkRobot 1 ((0 : ℤ), (0 : ℤ)) with
          wait_count := 1,
          path := [((0 : ℤ), (1 : ℤ)), ((0 : ℤ), (2 : ℤ)), ((0 : ℤ), (3 : ℤ)),
            ((0 : ℤ), (4 : ℤ)), ((0 : ℤ), (5 : ℤ))] } := by
  refine ⟨by decide, by decide⟩

/-- C4 amended: `decide_who_yields(r1, r2)` always returns exactly one
of the two; the lower-importance agent yields whenever the importances
differ by more than 100; within that band the agent with the longer
effective remaining path (an empty path counting as 999) yields, and on
equal lengths the agent with the lower id yields. -/
theorem c4_decide_who_yields_characterisation (r1 r2 : Robot) :
    (decide_who_yields r1 r2 = r1 ∨ decide_who_yields r1 r2 = r2) ∧
    (get_robot_importance r1 + 100 < get_robot_importance r2 →
      decide_who_yields r1 r2 = r1) ∧
    (get_robot_importance r2 + 100 < get_robot_importance r1 →
      decide_who_yields r1 r2 = r2) ∧
    (((get_robot_importance r1 : ℤ) - get_robot_importance r2).natAbs ≤ 100 →
      (effLen r1 > effLen r2 → decide_who_yields r1 r2 = r1) ∧
      (effLen r2 > effLen r1 → decide_who_yields r1 r2 = r2) ∧
      (effLen r1 = effLen r2 →
        decide_who_yields r1 r2 = if r1.id < r2.id then r1 else r2)) := by
  refine ⟨?_, ?_, ?_, ?_⟩
  · simp only [decide_who_yields]
    split_ifs <;> first | exact Or.inl rfl | exact Or.inr rfl
  · intro h
    simp only [decide_who_yields]
    split_ifs <;> first | rfl | omega
  · intro h
    simp only [decide_who_yields]
    split_ifs <;> first | rfl | omega
  · intro h
    refine ⟨?_, ?_, ?_⟩
    · intro hl
      simp only [decide_who_yields]
      simp only [effLen] at hl
      split_ifs at hl ⊢ <;> first | rfl | omega
    · intro hl
      simp only [decide_who_yields]
      simp only [effLen] at hl
      split_ifs at hl ⊢ <;> first | rfl | omega
    · intro hl
      simp only [decide_who_yields]
      simp only [effLen] at hl
      split_ifs at hl ⊢ <;> first | rfl | omega

/-- Witness for the amended C4 at a concrete pair whose importance gap
exceeds 100: the IDLE robot yields to the TO_PICKUP robot. -/
theorem c4_decide_who_yields_witness :
    get_robot_importance (mkRobot 1 ((0 : ℤ), (0 : ℤ))) + 100 <
      get_robot_importance
        { mkRobot 2 ((1 : ℤ), (1 : ℤ)) with state := RState.TO_PICKUP } ∧
    decide_who_yields (mkRobot 1 ((0 : ℤ), (0 : ℤ)))
        { mkRobot 2 ((1 : ℤ), (1 : ℤ)) with state := RState.TO_PICKUP } =
      mkRobot 1 ((0 : ℤ), (0 : ℤ)) :=
  ⟨by decide,
    (c4_decide_who_yields_characterisation (mkRobot 1 ((0 : ℤ), (0 : ℤ)))
      { mkRobot 2 ((1 : ℤ), (1 : ℤ)) with state := RState.TO_PICKUP }).2.1
      (by decide)⟩

/-! ## Claim C6 -/

/-- A turning move implies the agent had a direction. -/
theorem is_turn_ne_zero {old new : Dir} (h : is_turn old new = true) :
    old ≠ ((0 : ℤ), (0 : ℤ)) := by
  intro h0
  simp [is_turn, h0] at h

/-- C6 counterexample: with `last_dir = (0,0)` (no move yet) and
`momentum = 1`, the code applies the momentum factor `0.94` to the
non-turning move (it only requires "not a turn"), while the claim's
composition applies it only when the move continues `last_dir`; the two
costs differ (`94/125` versus `4/5`, after the shared corridor factor). -/
theorem c6_counterexample :
    calculate_move_cost ⟨5, 5, 10⟩ [] (fun _ => 0) (fun _ => false)
        { mkRobot 0 ((2 : ℤ), (2 : ℤ)) with momentum := 1 }
        ((2 : ℤ), (3 : ℤ)) ((0 : ℤ), (0 : ℤ)) ((0 : ℤ), (1 : ℤ)) false =
      94 / 125 ∧
    spec_step_cost ⟨5, 5, 10⟩ [] (fun _ => 0) (fun _ => false)
        { mkRobot 0 ((2 : ℤ), (2 : ℤ)) with momentum := 1 }
        ((2 : ℤ), (3 : ℤ)) ((0 : ℤ), (0 : ℤ)) ((0 : ℤ), (1 : ℤ)) false =
      4 / 5 ∧
    (94 / 125 : ℚ) ≠ 4 / 5 := by
  have h8 : corridor_map ⟨5, 5, 10⟩ [] ((2 : ℤ), (3 : ℤ)) = 8 := by decide
  have hnar : is_narrow_passage ⟨5, 5, 10⟩ [] ((2 : ℤ), (3 : ℤ)) = false := by
    decide
  have ht : is_turn ((0 : ℤ), (0 : ℤ)) ((0 : ℤ), (1 : ℤ)) = false := by decide
  refine ⟨?_, ?_, by norm_num⟩
  · simp only [calculate_move_cost, h8, hnar, ht]
    norm_num [CORRIDOR_BONUS, mkRobot]
  · simp only [spec_step_cost, h8, hnar, ht]
    norm_num [CORRIDOR_BONUS, mkRobot]

set_option maxHeartbeats 4000000 in
/-- C6 amended: for a route analyzer whose highway bonus at the target
cell is nonnegative (as the analyzer's precomputation guarantees), the
code's move cost equals the claim's composition with the momentum-factor
guard read as "the move does not turn" (`is_turn(last_dir, move_dir)`
false), which also covers `last_dir = (0,0)` with positive momentum. -/
theorem c6_cost_composition (S : Settings) (obstacles : List Cell)
    (highway : Cell → ℚ) (main_corridor : Cell → Bool) (robot : Robot)
    (nxt : Cell) (last_dir new_dir : Dir) (use_route_system : Bool)
    (hhw : 0 ≤ highway nxt) :
    calculate_move_cost S obstacles highway main_corridor robot nxt last_dir
        new_dir use_route_system =
      spec_step_cost_amended S obstacles highway main_corridor robot nxt
        last_dir new_dir use_route_system := by
  have hiff : ((is_turn last_dir new_dir = true) ∧
      last_dir ≠ ((0 : ℤ), (0 : ℤ))) ↔ (is_turn last_dir new_dir = true) :=
    ⟨fun h => h.1, fun h => ⟨h, is_turn_ne_zero h⟩⟩
  unfold calculate_move_cost spec_step_cost_amended
  dsimp only
  simp only [hiff]
  rcases eq_or_lt_of_le hhw with h0 | hpos
  · rw [← h0]
    have h1 : (1 : ℚ) - 0 * (3 / 100) = 1 := by norm_num
    rw [h1]
    have h2 : max ((85 : ℚ) / 100) 1 = 1 := max_eq_right (by norm_num)
    rw [h2]
    have h3 : ¬((0 : ℚ) > 0) := by norm_num
    rw [if_neg h3]
    split_ifs <;> first | ring1 | (exfalso; omega) | (exfalso; tauto)
  · rw [if_pos hpos]
    split_ifs <;> first | ring1 | (exfalso; omega) | (exfalso; tauto)


/-- Witness for the amended C6 at the counterexample's inputs. -/
theorem c6_cost_composition_witness :
    (0 : ℚ) ≤ (fun _ : Cell => (0 : ℚ)) ((2 : ℤ), (3 : ℤ)) ∧
    calculate_move_cost ⟨5, 5, 10⟩ [] (fun _ => 0) (fun _ => false)
        { mkRobot 0 ((2 : ℤ), (2 : ℤ)) with momentum := 1 }
        ((2 : ℤ), (3 : ℤ)) ((0 : ℤ), (0 : ℤ)) ((0 : ℤ), (1 : ℤ)) false =
      spec_step_cost_amended ⟨5, 5, 10⟩ [] (fun _ => 0) (fun _ => false)
        { mkRobot 0 ((2 : ℤ), (2 : ℤ)) with momentum := 1 }
        ((2 : ℤ), (3 : ℤ)) ((0 : ℤ), (0 : ℤ)) ((0 : ℤ), (1 : ℤ)) false :=
  ⟨by norm_num,
    c6_cost_composition ⟨5, 5, 10⟩ [] (fun _ => 0) (fun _ => false)
      { mkRobot 0 ((2 : ℤ), (2 : ℤ)) with momentum := 1 }
      ((2 : ℤ), (3 : ℤ)) ((0 : ℤ), (0 : ℤ)) ((0 : ℤ), (1 : ℤ)) false
      (by norm_num)⟩

/-! ## Claim C8 -/

/-- Folding error-list appends equals one flattened map. -/
theorem foldl_append_errors {α β : Type} (f : α → List β) (l : List α)
    (init : List β) :
    l.foldl (fun acc x => acc ++ f x) init = init ++ (l.map f).flatten := by
  induction l generalizing init with
  | nil => simp
  | cons x rest ih => simp [ih, List.append_assoc]

/-- `validate_config` as the flattened per-entry error lists. -/
theorem validate_config_eq (S : Settings) (obstacles : List Cell)
    (cfg : Config) :
    validate_config S obstacles cfg =
      (cfg.robots.map (robot_errors S obstacles)).flatten ++
      (cfg.packages.map (package_errors S obstacles)).flatten := by
  unfold validate_config
  have hr : (fun (errs : List ConfigError) (rc : RobotCfg) =>
      let errs := if in_bounds S rc.pos.1 rc.pos.2 = false then
          errs ++ [ConfigError.robotOut rc.pos]
        else errs
      if rc.pos ∈ obstacles then errs ++ [ConfigError.robotWall rc.pos]
      else errs) =
      fun errs rc => errs ++ robot_errors S obstacles rc := by
    funext errs rc
    dsimp only
    split_ifs <;> simp [robot_errors, *]
  have hp : (fun (errs : List ConfigError) (pc : PackageCfg) =>
      let errs := if in_bounds S pc.pickup.1 pc.pickup.2 = false then
          errs ++ [ConfigError.pickupOut pc.pickup]
        else errs
      let errs := if pc.pickup ∈ obstacles then
          errs ++ [ConfigError.pickupWall pc.pickup]
        else errs
      let errs := if in_bounds S pc.dropoff.1 pc.dropoff.2 = false then
          errs ++ [ConfigError.dropoffOut pc.dropoff]
        else errs
      if pc.dropoff ∈ obstacles then errs ++ [ConfigError.dropoffWall pc.dropoff]
      else errs) =
      fun errs pc => errs ++ package_errors S obstacles pc := by
    funext errs pc
    dsimp only
    split_ifs <;> simp [package_errors, *]
  rw [hr, hp, foldl_append_errors, foldl_append_errors]
  simp

/-- No error is reported for a robot entry iff its cell is in bounds and
outside the walls. -/
theorem robot_errors_eq_nil (S : Settings) (obstacles : List Cell)
    (rc : RobotCfg) :
    robot_errors S obstacles rc = [] ↔
      (in_bounds S rc.pos.1 rc.pos.2 = true ∧ rc.pos ∉ obstacles) := by
  unfold robot_errors
  split_ifs with h1 h2 <;> simp_all

/-- No error is reported for a package entry iff its pickup and dropoff
cells are in bounds and outside the walls. -/
theorem package_errors_eq_nil (S : Settings) (obstacles : List Cell)
    (pc : PackageCfg) :
    package_errors S obstacles pc = [] ↔
      ((in_bounds S pc.pickup.1 pc.pickup.2 = true ∧ pc.pickup ∉ obstacles) ∧
       (in_bounds S pc.dropoff.1 pc.dropoff.2 = true ∧ pc.dropoff ∉ obstacles)) := by
  unfold package_errors
  split_ifs <;> simp_all

/-- C8: configuration validation rejects a robot or package entry
exactly when one of its coordinates is out of bounds or lies inside an
obstacle; in particular a configuration placing two robots with the
same id on the same in-bounds, non-obstacle cell loads without error,
and `_init_robots` then creates two agents sharing id and cell — so the
at-most-one-agent-per-cell invariant is not established at load. -/
theorem c8_validation_only_checks_coordinates :
    (∀ cfg : Config,
      validate_config (load_settings_from_config cfg) (init_obstacles cfg)
          cfg = [] ↔
        ((∀ rc ∈ cfg.robots,
            in_bounds (load_settings_from_config cfg) rc.pos.1 rc.pos.2 = true ∧
              rc.pos ∉ init_obstacles cfg) ∧
         (∀ pc ∈ cfg.packages,
            (in_bounds (load_settings_from_config cfg) pc.pickup.1
                pc.pickup.2 = true ∧ pc.pickup ∉ init_obstacles cfg) ∧
            (in_bounds (load_settings_from_config cfg) pc.dropoff.1
                pc.dropoff.2 = true ∧ pc.dropoff ∉ init_obstacles cfg)))) ∧
    (validate_config
        (load_settings_from_config
          { settings := ⟨some 5, some 5, none⟩, walls := [],
            robots := [⟨some 7, ((1 : ℤ), (1 : ℤ))⟩,
              ⟨some 7, ((1 : ℤ), (1 : ℤ))⟩],
            packages := [] })
        (init_obstacles
          { settings := ⟨some 5, some 5, none⟩, walls := [],
            robots := [⟨some 7, ((1 : ℤ), (1 : ℤ))⟩,
              ⟨some 7, ((1 : ℤ), (1 : ℤ))⟩],
            packages := [] })
        { settings := ⟨some 5, some 5, none⟩, walls := [],
          robots := [⟨some 7, ((1 : ℤ), (1 : ℤ))⟩,
            ⟨some 7, ((1 : ℤ), (1 : ℤ))⟩],
          packages := [] } = [] ∧
      init_robots
          { settings := ⟨some 5, some 5, none⟩, walls := [],
            robots := [⟨some 7, ((1 : ℤ), (1 : ℤ))⟩,
              ⟨some 7, ((1 : ℤ), (1 : ℤ))⟩],
            packages := [] } =
        [mkRobot 7 ((1 : ℤ), (1 : ℤ)), mkRobot 7 ((1 : ℤ), (1 : ℤ))]) := by
  constructor
  · intro cfg
    rw [validate_config_eq]
    simp only [List.append_eq_nil, List.flatten_eq_nil_iff, List.mem_map,
      forall_exists_index, and_imp]
    constructor
    · rintro ⟨h1, h2⟩
      refine ⟨fun rc hrc => ?_, fun pc hpc => ?_⟩
      · exact (robot_errors_eq_nil _ _ rc).mp (h1 _ rc hrc rfl)
      · exact (package_errors_eq_nil _ _ pc).mp (h2 _ pc hpc rfl)
    · rintro ⟨h1, h2⟩
      refine ⟨?_, ?_⟩
      · rintro l rc hrc rfl
        exact (robot_errors_eq_nil _ _ rc).mpr (h1 rc hrc)
      · rintro l pc hpc rfl
        exact (package_errors_eq_nil _ _ pc).mpr (h2 pc hpc)
  · exact ⟨by decide, by decide⟩

/-! ## Claim C3 -/

set_option maxHeartbeats 4000000 in
/-- Both exits of the scheduler loop — normal completion and the
`MAX_STEPS` bound — fall out of `main` normally, i.e. with exit code 0. -/
theorem sim_loop_exit_code (S : Settings) (obstacles : List Cell)
    (astar : AStarFn) (dirs : ℕ → List Dir) :
    ∀ (fuel step : ℕ) (st : SimState),
      (sim_loop S obstacles astar dirs fuel step st).1 = 0 := by
  intro fuel
  induction fuel with
  | zero => intro step st; rfl
  | succ n ih =>
      intro step st
      rw [sim_loop]
      have hg : ∀ st' : SimState,
          (if win_condition st'.robots st'.packages then
              ((0 : ℕ), EndReason.normal)
            else if step > S.maxSteps then (0, EndReason.timeout)
            else sim_loop S obstacles astar dirs n (step + 1) st').1 = 0 := by
        intro st'
        split_ifs <;> first | exact ih _ _ | rfl
      exact hg (tick S obstacles astar dirs step st)

set_option maxHeartbeats 2000000 in
/-- C3 counterexample: a valid configuration (one package, no robots,
`max_steps = 2`) runs to the `MAX_STEPS` bound and the process exits
with code `0`, not a non-zero code. -/
theorem c3_counterexample :
    runMain (fun _ _ _ _ => [])
        (fun _ => [((-1 : ℤ), (0 : ℤ)), ((1 : ℤ), (0 : ℤ)), ((0 : ℤ), (-1 : ℤ)),
          ((0 : ℤ), (1 : ℤ))])
        { settings := ⟨some 5, some 5, some 2⟩, walls := [], robots := [],
          packages := [⟨((0 : ℤ), (0 : ℤ)), ((0 : ℤ), (1 : ℤ))⟩] } =
      (0, EndReason.timeout) := by
  decide

/-- C3 amended: the process exit code is `0` both on normal termination
(all delivered, all agents home) and on reaching `MAX_STEPS`; only a
configuration validation failure at load exits non-zero (code 1). -/
theorem c3_exit_codes (astar : AStarFn) (dirs : ℕ → List Dir) (cfg : Config) :
    (runMain astar dirs cfg).1 =
      if validate_config (load_settings_from_config cfg) (init_obstacles cfg)
          cfg = [] then 0 else 1 := by
  unfold runMain
  by_cases h : validate_config (load_settings_from_config cfg)
      (init_obstacles cfg) cfg = []
  · simp [h, sim_loop_exit_code]
  · simp [h]

/-! ## Claim C9 -/

/-- `decisive_bookkeeping` only touches the stuck-tracking fields. -/
theorem decisive_bookkeeping_id (rb : Robot) :
    (decisive_bookkeeping rb).id = rb.id := by
  simp only [decisive_bookkeeping]
  split_ifs <;> rfl

/-- `decisive_bookkeeping` keeps the robot's position. -/
theorem decisive_bookkeeping_pos (rb : Robot) :
    (decisive_bookkeeping rb).pos = rb.pos := by
  simp only [decisive_bookkeeping]
  split_ifs <;> rfl

/-- `decisive_bookkeeping` keeps the robot's wait counter. -/
theorem decisive_bookkeeping_wait_count (rb : Robot) :
    (decisive_bookkeeping rb).wait_count = rb.wait_count := by
  simp only [decisive_bookkeeping]
  split_ifs <;> rfl

/-- `decisive_bookkeeping` keeps the robot's last direction. -/
theorem decisive_bookkeeping_last_dir (rb : Robot) :
    (decisive_bookkeeping rb).last_dir = rb.last_dir := by
  simp only [decisive_bookkeeping]
  split_ifs <;> rfl

/-- `decisive_bookkeeping` keeps the robot's path. -/
theorem decisive_bookkeeping_path (rb : Robot) :
    (decisive_bookkeeping rb).path = rb.path := by
  simp only [decisive_bookkeeping]
  split_ifs <;> rfl

/-- `decisive_bookkeeping` keeps the robot's state. -/
theorem decisive_bookkeeping_state (rb : Robot) :
    (decisive_bookkeeping rb).state = rb.state := by
  simp only [decisive_bookkeeping]
  split_ifs <;> rfl

/-- The retreat loop with a zero opposite direction never moves: when
the current cell is safe and unshared it accumulates copies of that
cell, otherwise it stops immediately. -/
theorem find_retreat_path_go_zero (S : Settings) (obstacles : List Cell)
    (robots : List Robot) (rr : Robot) (steps : ℕ) (c : Cell)
    (acc : List Cell) :
    find_retreat_path_go S obstacles robots rr ((0 : ℤ), (0 : ℤ)) steps c
        acc =
      if is_safe_cell S obstacles c = true ∧
          (robots.any fun o =>
            decide (o.id ≠ rr.id) && decide (o.pos = c)) = false then
        acc ++ List.replicate steps c
      else acc := by
  induction steps generalizing acc with
  | zero =>
      simp [find_retreat_path_go]
  | succ n ih =>
      rw [find_retreat_path_go]
      have hc : ((c.1 + (0 : ℤ), c.2 + (0 : ℤ)) : Cell) = c := by
        cases c
        simp
      try dsimp only
      rw [hc]
      by_cases hs : is_safe_cell S obstacles c = true
      · by_cases ha : (robots.any fun o =>
            decide (o.id ≠ rr.id) && decide (o.pos = c)) = true
        · rw [if_neg (by simp [hs]), if_pos ha,
            if_neg (by rintro ⟨-, h2⟩; rw [h2] at ha; exact absurd ha (by simp))]
        · have ha' : (robots.any fun o =>
              decide (o.id ≠ rr.id) && decide (o.pos = c)) = false := by
            simpa using ha
          rw [if_neg (by simp [hs]), if_neg (by rw [ha']; simp), ih,
            if_pos (⟨hs, ha'⟩ : _ ∧ _), if_pos (⟨hs, ha'⟩ : _ ∧ _)]
          simp [List.replicate_succ]
      · have hs' : is_safe_cell S obstacles c = false := by simpa using hs
        rw [if_pos hs',
          if_neg (by rintro ⟨h1x, -⟩; rw [hs'] at h1x; exact absurd h1x (by simp))]

/-- C9: an agent that has never moved (`last_dir = (0,0)`) standing on a
safe, unshared cell retreats in place: `find_retreat_path` returns
exactly `steps` copies of its own cell, and the RETREAT branch of the
decisive-action ladder (`FORCE_MOVE_THRESHOLD ≤ wait <
DEADLOCK_THRESHOLD`) installs that non-empty, movement-free path with
its default three copies. -/
theorem c9_retreat_in_place (S : Settings) (obstacles : List Cell)
    (robots : List Robot) (r : Robot) (steps : ℕ)
    (h0 : r.last_dir = ((0 : ℤ), (0 : ℤ)))
    (h1 : is_safe_cell S obstacles r.pos = true)
    (h2 : ∀ o ∈ robots, o.id ≠ r.id → o.pos ≠ r.pos) :
    find_retreat_path S obstacles robots r steps =
      List.replicate steps r.pos ∧
    (List.replicate 3 r.pos ≠ [] ∧
      (List.replicate 3 r.pos).head? = some r.pos) ∧
    ∀ (corridor : Cell → ℕ) (dirs : ℕ → List Dir) (i : ℕ),
      robots.get? i = some r →
      FORCE_MOVE_THRESHOLD ≤ r.wait_count →
      r.wait_count < DEADLOCK_THRESHOLD →
      (make_decisive_action S obstacles corridor dirs robots i).1 =
        DecisiveAction.RETREAT (List.replicate 3 r.pos) := by
  have hany : (robots.any fun o =>
      decide (o.id ≠ r.id) && decide (o.pos = r.pos)) = false := by
    rw [List.any_eq_false]
    intro o ho
    simp only [Bool.and_eq_true, decide_eq_true_eq, not_and]
    exact fun hid => h2 o ho hid
  have hmain : ∀ (r' : Robot), r'.last_dir = ((0 : ℤ), (0 : ℤ)) →
      r'.pos = r.pos → r'.id = r.id → ∀ steps',
      find_retreat_path S obstacles robots r' steps' =
        List.replicate steps' r.pos := by
    intro r' hd hp hid steps'
    unfold find_retreat_path
    rw [hd, hp]
    try dsimp only
    simp only [neg_zero]
    rw [find_retreat_path_go_zero]
    simp only [hid]
    rw [if_pos (⟨h1, hany⟩ : _ ∧ _)]
    simp
  refine ⟨hmain r h0 rfl rfl steps, ⟨by simp, by simp⟩, ?_⟩
  intro corridor dirs i hi hw1 hw2
  simp only [FORCE_MOVE_THRESHOLD, DEADLOCK_THRESHOLD] at hw1 hw2
  unfold make_decisive_action
  rw [hi]
  try dsimp only
  rw [hmain { decisive_bookkeeping r with failed_paths := [] }
    (by dsimp only; rw [decisive_bookkeeping_last_dir]; exact h0)
    (by dsimp only; rw [decisive_bookkeeping_pos])
    (by dsimp only; rw [decisive_bookkeeping_id]) 3]
  simp only [decisive_bookkeeping_wait_count, YIELD_THRESHOLD,
    DECISION_WAIT_THRESHOLD, FORCE_MOVE_THRESHOLD, DEADLOCK_THRESHOLD]
  split_ifs <;>
    first
      | rfl
      | (exfalso; omega)
      | simp_all

/-- Witness for C9: a single never-moved robot on a 5×5 empty grid with
`wait_count = 12`. -/
theorem c9_retreat_in_place_witness :
    (({ mkRobot 3 ((2 : ℤ), (2 : ℤ)) with wait_count := 12 } : Robot).last_dir =
        ((0 : ℤ), (0 : ℤ)) ∧
      is_safe_cell ⟨5, 5, 10⟩ []
        ({ mkRobot 3 ((2 : ℤ), (2 : ℤ)) with wait_count := 12 } : Robot).pos =
        true) ∧
    find_retreat_path ⟨5, 5, 10⟩ []
        [{ mkRobot 3 ((2 : ℤ), (2 : ℤ)) with wait_count := 12 }]
        { mkRobot 3 ((2 : ℤ), (2 : ℤ)) with wait_count := 12 } 3 =
      List.replicate 3 ((2 : ℤ), (2 : ℤ)) ∧
    (make_decisive_action ⟨5, 5, 10⟩ [] (fun _ => 0)
        (fun _ => [((-1 : ℤ), (0 : ℤ)), ((1 : ℤ), (0 : ℤ)), ((0 : ℤ), (-1 : ℤ)),
          ((0 : ℤ), (1 : ℤ))])
        [{ mkRobot 3 ((2 : ℤ), (2 : ℤ)) with wait_count := 12 }] 0).1 =
      DecisiveAction.RETREAT (List.replicate 3 ((2 : ℤ), (2 : ℤ))) := by
  have h := c9_retreat_in_place ⟨5, 5, 10⟩ []
    [{ mkRobot 3 ((2 : ℤ), (2 : ℤ)) with wait_count := 12 }]
    { mkRobot 3 ((2 : ℤ), (2 : ℤ)) with wait_count := 12 } 3
    (by decide) (by decide) (by decide)
  exact ⟨⟨by decide, by decide⟩, h.1,
    h.2.2 (fun _ => 0)
      (fun _ => [((-1 : ℤ), (0 : ℤ)), ((1 : ℤ), (0 : ℤ)), ((0 : ℤ), (-1 : ℤ)),
        ((0 : ℤ), (1 : ℤ))]) 0 (by decide) (by decide) (by decide)⟩

/-! ## Claim C1: helper lemmas -/

/-- Setting index `i` to a robot with the same id and cell as the
current occupant leaves the observable `(id, pos)` list unchanged. -/
theorem obsOf_set (l : List Robot) (i : ℕ) (rb' : Robot)
    (hid : rb'.id = (l.getD i dummyRobot).id)
    (hpos : rb'.pos = (l.getD i dummyRobot).pos) :
    obsOf (l.set i rb') = obsOf l := by
  induction l generalizing i with
  | nil => rfl
  | cons a t ih =>
      cases i with
      | zero =>
          rw [List.getD_cons_zero] at hid hpos
          simp [obsOf, hid, hpos]
      | succ j =>
          rw [List.getD_cons_succ] at hid hpos
          simp only [List.set_cons_succ, obsOf, List.map_cons]
          rw [show (t.set j rb').map (fun r => (r.id, r.pos)) =
            obsOf (t.set j rb') from rfl, ih j hid hpos]
          rfl

/-- Setting index `i` to a robot with the same id as the current
occupant leaves the id list unchanged. -/
theorem ids_map_set (l : List Robot) (i : ℕ) (rb' : Robot)
    (hid : rb'.id = (l.getD i dummyRobot).id) :
    (l.set i rb').map Robot.id = l.map Robot.id := by
  induction l generalizing i with
  | nil => rfl
  | cons a t ih =>
      cases i with
      | zero =>
          rw [List.getD_cons_zero] at hid
          simp [hid]
      | succ j =>
          rw [List.getD_cons_succ] at hid
          simp only [List.set_cons_succ, List.map_cons]
          rw [ih j hid]

/-- `getD` at an index other than the set one. -/
theorem getD_set_ne (l : List Robot) (j i : ℕ) (b : Robot) (h : j ≠ i) :
    (l.set j b).getD i dummyRobot = l.getD i dummyRobot := by
  induction l generalizing i j with
  | nil => rfl
  | cons a t ih =>
      cases j with
      | zero =>
          cases i with
          | zero => exact absurd rfl h
          | succ i' => rfl
      | succ j' =>
          cases i with
          | zero => rfl
          | succ i' =>
              simp only [List.set_cons_succ, List.getD_cons_succ]
              exact ih j' i' (by omega)

/-- Equal observables give equal id lists. -/
theorem map_id_of_obsOf {rs rs' : List Robot}
    (h : obsOf rs = obsOf rs') : rs.map Robot.id = rs'.map Robot.id := by
  have h1 : (obsOf rs).map Prod.fst = (obsOf rs').map Prod.fst := by rw [h]
  simpa [obsOf, List.map_map, Function.comp] using h1

/-- Equal observables give equal cell lists. -/
theorem map_pos_of_obsOf {rs rs' : List Robot}
    (h : obsOf rs = obsOf rs') : rs.map Robot.pos = rs'.map Robot.pos := by
  have h1 : (obsOf rs).map Prod.snd = (obsOf rs').map Prod.snd := by rw [h]
  simpa [obsOf, List.map_map, Function.comp] using h1

/-- Distinctness of ids only depends on the id list. -/
theorem distinct_ids_congr {rs rs' : List Robot}
    (h : rs.map Robot.id = rs'.map Robot.id) :
    distinct_ids rs ↔ distinct_ids rs' := by
  unfold distinct_ids
  rw [← List.pairwise_map (f := Robot.id) (R := (· ≠ ·)),
    ← List.pairwise_map (f := Robot.id) (R := (· ≠ ·)), h]

/-- Distinctness of cells only depends on the cell list. -/
theorem distinct_pos_congr {rs rs' : List Robot}
    (h : rs.map Robot.pos = rs'.map Robot.pos) :
    distinct_pos rs ↔ distinct_pos rs' := by
  unfold distinct_pos
  rw [← List.pairwise_map (f := Robot.pos) (R := (· ≠ ·)),
    ← List.pairwise_map (f := Robot.pos) (R := (· ≠ ·)), h]

/-- An observable-preserving fold over a robot list preserves the
observables. -/
theorem obsOf_foldl {α : Type} (f : List Robot → α → List Robot)
    (h : ∀ rs a, obsOf (f rs a) = obsOf rs) :
    ∀ (l : List α) (rs : List Robot), obsOf (l.foldl f rs) = obsOf rs := by
  intro l
  induction l with
  | nil => intro rs; rfl
  | cons a t ih =>
      intro rs
      rw [List.foldl_cons, ih (f rs a), h rs a]

/-- An observable-preserving fold over a robots-plus-extra state
preserves the observables. -/
theorem obsOf_foldl_fst {α : Type} {β : Type}
    (f : List Robot × β → α → List Robot × β)
    (h : ∀ st a, obsOf (f st a).1 = obsOf st.1) :
    ∀ (l : List α) (st : List Robot × β),
      obsOf (l.foldl f st).1 = obsOf st.1 := by
  intro l
  induction l with
  | nil => intro st; rfl
  | cons a t ih =>
      intro st
      rw [List.foldl_cons, ih (f st a), h st a]

/-- `detect_oscillation` only rewrites the position history. -/
theorem detect_oscillation_idpos (rb : Robot) :
    (detect_oscillation rb).2.id = rb.id ∧
    (detect_oscillation rb).2.pos = rb.pos := by
  unfold detect_oscillation
  exact ⟨rfl, rfl⟩

/-- `force_reset_stuck_state` never moves the robot or changes its id. -/
theorem force_reset_stuck_state_idpos (rb : Robot) (ps : Packages) :
    (force_reset_stuck_state rb ps).1.id = rb.id ∧
    (force_reset_stuck_state rb ps).1.pos = rb.pos := by
  unfold force_reset_stuck_state
  dsimp only
  constructor <;> (repeat' split) <;> rfl

/-- `get_emergency_move` never moves the robot or changes its id. -/
theorem get_emergency_move_idpos (S : Settings) (obstacles : List Cell)
    (robots : List Robot) (dirs : List Dir) (rb : Robot) :
    (get_emergency_move S obstacles robots dirs rb).2.id = rb.id ∧
    (get_emergency_move S obstacles robots dirs rb).2.pos = rb.pos := by
  unfold get_emergency_move
  dsimp only
  constructor <;> (repeat' split) <;> rfl

/-- `exec_task_transitions` never moves the robot or changes its id. -/
theorem exec_task_transitions_idpos (S : Settings) (obstacles : List Cell)
    (astar : AStarFn) (rs : List Robot) (ps : Packages)
    (reserved : List Cell) (rb : Robot) :
    (exec_task_transitions S obstacles astar rs ps reserved rb).1.id =
      rb.id ∧
    (exec_task_transitions S obstacles astar rs ps reserved rb).1.pos =
      rb.pos := by
  unfold exec_task_transitions
  dsimp only
  constructor <;> (repeat' split) <;> rfl

/-- The planning sub-step never moves the robot or changes its id. -/
theorem phase5_plan_idpos (S : Settings) (obstacles : List Cell)
    (astar : AStarFn) (pkgs : Packages) (robots : List Robot) (rb : Robot) :
    (phase5_plan S obstacles astar pkgs robots rb).id = rb.id ∧
    (phase5_plan S obstacles astar pkgs robots rb).pos = rb.pos := by
  unfold phase5_plan
  dsimp only
  constructor <;> (repeat' split) <;> rfl

/-- The move-prediction sub-step never moves the robot or changes its
id. -/
theorem phase5_predict_idpos (S : Settings) (obstacles : List Cell)
    (pm : PlannedMoves) (rb : Robot) :
    (phase5_predict S obstacles pm rb).2.id = rb.id ∧
    (phase5_predict S obstacles pm rb).2.pos = rb.pos := by
  unfold phase5_predict
  constructor <;> (repeat' split) <;> rfl

/-- The package-request tail never moves the robot or changes its id. -/
theorem phase5_request_idpos (S : Settings) (obstacles : List Cell)
    (astar : AStarFn) (rs : List Robot) (ps : Packages) (rb : Robot) :
    (phase5_request S obstacles astar rs ps rb).1.id = rb.id ∧
    (phase5_request S obstacles astar rs ps rb).1.pos = rb.pos := by
  unfold phase5_request
  dsimp only
  constructor <;> (repeat' split) <;> rfl

/-- The IDLE/HOME sub-step never moves the robot or changes its id. -/
theorem phase5_idle_idpos (S : Settings) (obstacles : List Cell)
    (astar : AStarFn) (rs : List Robot) (ps : Packages) (rb : Robot) :
    (phase5_idle S obstacles astar rs ps rb).1.id = rb.id ∧
    (phase5_idle S obstacles astar rs ps rb).1.pos = rb.pos := by
  unfold phase5_idle
  dsimp only
  constructor <;>
    (repeat' split) <;>
    first
      | rfl
      | exact (phase5_request_idpos S obstacles astar rs ps _).1
      | exact (phase5_request_idpos S obstacles astar rs ps _).2

/-- The fallback pass of `get_emergency_move` in equation form. -/
theorem get_emergency_move_snd_eq (S : Settings) (obstacles : List Cell)
    (robots : List Robot) (dirs : List Dir) (rb : Robot) (o : Option Cell)
    (r' : Robot)
    (h : get_emergency_move S obstacles robots dirs rb = (o, r')) :
    r'.id = rb.id ∧ r'.pos = rb.pos := by
  have h1 := get_emergency_move_idpos S obstacles robots dirs rb
  rw [h] at h1
  exact h1

/-- `fix_robot_states` preserves the observables. -/
theorem obsOf_fix_robot_states (S : Settings) (obstacles : List Cell)
    (astar : AStarFn) (robots : List Robot) (pkgs : Packages) :
    obsOf (fix_robot_states S obstacles astar robots pkgs) =
      obsOf robots := by
  unfold fix_robot_states
  refine obsOf_foldl _ ?_ _ _
  intro rs i
  dsimp only
  (repeat' split) <;> first | rfl | (apply obsOf_set <;> rfl)

/-- `force_idle_robots_to_work` preserves the observables. -/
theorem obsOf_force_idle (S : Settings) (obstacles : List Cell)
    (astar : AStarFn) (robots : List Robot) (pkgs : Packages) :
    obsOf (force_idle_robots_to_work S obstacles astar robots pkgs).1 =
      obsOf robots := by
  unfold force_idle_robots_to_work
  refine obsOf_foldl_fst _ ?_ _ _
  intro st i
  obtain ⟨rs, ps⟩ := st
  dsimp only
  (repeat' split) <;>
    first
      | rfl
      | (apply obsOf_set <;> rfl)
      | (rw [List.set_set]; apply obsOf_set <;> rfl)

/-- `reassign_stuck_packages` preserves the observables. -/
theorem obsOf_reassign (S : Settings) (obstacles : List Cell)
    (astar : AStarFn) (robots : List Robot) (pkgs : Packages) :
    obsOf (reassign_stuck_packages S obstacles astar robots pkgs).1 =
      obsOf robots := by
  unfold reassign_stuck_packages
  refine obsOf_foldl_fst _ ?_ _ _
  intro st pid
  obtain ⟨rs, ps⟩ := st
  dsimp only
  (repeat' split) <;>
    first
      | rfl
      | (rw [List.set_set, obsOf_set, obsOf_set] <;> rfl)

/-- `cleanup_orphaned_assignments` leaves the robots untouched (it only
returns packages), so there is nothing to show for it; `tick_phase1`
composes the phase-1 pieces. -/
theorem obsOf_tick_phase1 (S : Settings) (obstacles : List Cell)
    (astar : AStarFn) (step : ℕ) (st : SimState) :
    obsOf (tick_phase1 S obstacles astar step st).1 = obsOf st.robots := by
  unfold tick_phase1
  dsimp only
  split <;> split <;> (try dsimp only) <;>
    simp only [obsOf_force_idle, obsOf_reassign, obsOf_fix_robot_states]

/-- `resolve_deadlock_group` preserves the observables. -/
theorem obsOf_resolve_deadlock_group (S : Settings) (obstacles : List Cell)
    (dirs : ℕ → List Dir) (robots : List Robot) (group : List ℕ) :
    obsOf (resolve_deadlock_group S obstacles dirs robots group) =
      obsOf robots := by
  unfold resolve_deadlock_group
  dsimp only
  split
  · rfl
  split
  · rfl
  split
  next pos rb' h =>
      obtain ⟨h1, h2⟩ := get_emergency_move_snd_eq _ _ _ _ _ _ _ h
      apply obsOf_set
      · exact h1
      · exact h2
  next rb' h =>
      obtain ⟨h1, h2⟩ := get_emergency_move_snd_eq _ _ _ _ _ _ _ h
      apply obsOf_set
      · exact h1
      · exact h2

/-- Tick phase 2 preserves the observables. -/
theorem obsOf_tick_phase2 (S : Settings) (obstacles : List Cell)
    (dirs : ℕ → List Dir) (rs : List Robot) :
    obsOf (tick_phase2 S obstacles dirs rs) = obsOf rs := by
  unfold tick_phase2
  exact obsOf_foldl _ (fun rs' g => obsOf_resolve_deadlock_group
    S obstacles dirs rs' g) _ _

/-- `phase3_tail` preserves the observables when handed the robot at
index `i`. -/
theorem obsOf_phase3_tail (S : Settings) (obstacles : List Cell)
    (corridor : Cell → ℕ) (astar : AStarFn)
    (critical_paths : List (ℕ × List Cell)) (step : ℕ) (rs : List Robot)
    (ps : Packages) (i : ℕ) (rb : Robot)
    (hid : rb.id = (rs.getD i dummyRobot).id)
    (hpos : rb.pos = (rs.getD i dummyRobot).pos) :
    obsOf (phase3_tail S obstacles corridor astar critical_paths step
      rs ps i rb).1 = obsOf rs := by
  unfold phase3_tail
  dsimp only
  (repeat' split) <;>
    (apply obsOf_set <;> first | exact hid | exact hpos)

/-- One step of tick phase 3 preserves the observables. -/
theorem obsOf_phase3_step (S : Settings) (obstacles : List Cell)
    (corridor : Cell → ℕ) (astar : AStarFn)
    (critical_paths : List (ℕ × List Cell)) (step : ℕ)
    (st : List Robot × Packages) (i : ℕ) :
    obsOf (phase3_step S obstacles corridor astar critical_paths step
      st i).1 = obsOf st.1 := by
  obtain ⟨rs, ps⟩ := st
  unfold phase3_step
  dsimp only
  (repeat' split) <;>
    first
      | rfl
      | (apply obsOf_set <;>
          first
            | exact ((force_reset_stuck_state_idpos _ _).1).trans
                ((detect_oscillation_idpos _).1)
            | exact ((force_reset_stuck_state_idpos _ _).2).trans
                ((detect_oscillation_idpos _).2))
      | (apply obsOf_phase3_tail <;>
          first
            | exact (detect_oscillation_idpos _).1
            | exact (detect_oscillation_idpos _).2)

/-- `emergency_step` preserves the observables when handed a robot with
the id and cell of the occupant of index `i`. -/
theorem obsOf_emergency_step (S : Settings) (obstacles : List Cell)
    (dirs : ℕ → List Dir) (i : ℕ) (robots : List Robot) (rb : Robot)
    (hid : rb.id = (robots.getD i dummyRobot).id)
    (hpos : rb.pos = (robots.getD i dummyRobot).pos) :
    obsOf (emergency_step S obstacles dirs i robots rb).2 =
      obsOf robots := by
  unfold emergency_step
  split
  next pos rb' h =>
      obtain ⟨h1, h2⟩ := get_emergency_move_snd_eq _ _ _ _ _ _ _ h
      apply obsOf_set
      · exact h1.trans hid
      · exact h2.trans hpos
  next rb' h =>
      obtain ⟨h1, h2⟩ := get_emergency_move_snd_eq _ _ _ _ _ _ _ h
      apply obsOf_set
      · exact h1.trans hid
      · exact h2.trans hpos

/-- `deadlock_tail` preserves the observables when handed a robot with
the id and cell of the occupant of index `i`. -/
theorem obsOf_deadlock_tail (S : Settings) (obstacles : List Cell)
    (corridor : Cell → ℕ) (dirs : ℕ → List Dir) (i : ℕ)
    (robots : List Robot) (rb : Robot)
    (hid : rb.id = (robots.getD i dummyRobot).id)
    (hpos : rb.pos = (robots.getD i dummyRobot).pos) :
    obsOf (deadlock_tail S obstacles corridor dirs i robots rb).2 =
      obsOf robots := by
  unfold deadlock_tail
  split
  case _ next_pos hh =>
    split
    case _ j hj =>
      have hji : j ≠ i := by
        obtain ⟨hlt, hp, -⟩ := List.findIdx?_eq_some_iff_getElem.mp hj
        intro he
        subst he
        simp only [Bool.and_eq_true, decide_eq_true_eq] at hp
        exact hp.1 (by rw [hid, List.getD_eq_getElem robots dummyRobot hlt])
      have hgd : ∀ (occ2 : Robot),
          (robots.set j occ2).getD i dummyRobot =
            robots.getD i dummyRobot := fun occ2 => getD_set_ne _ _ _ _ hji
      dsimp only
      split
      · split
        · refine (obsOf_set _ _ _ ?_ ?_).trans (obsOf_set _ _ _ rfl rfl)
          · rw [hgd]
            exact hid
          · rw [hgd]
            exact hpos
        · refine (obsOf_emergency_step S obstacles dirs i _ rb ?_ ?_).trans
            (obsOf_set _ _ _ rfl rfl)
          · rw [hgd]
            exact hid
          · rw [hgd]
            exact hpos
      · exact obsOf_emergency_step S obstacles dirs i robots rb hid hpos
    case _ hj =>
      exact obsOf_emergency_step S obstacles dirs i robots rb hid hpos
  case _ hh =>
    exact obsOf_emergency_step S obstacles dirs i robots rb hid hpos

/-- `make_decisive_action` preserves the observables. -/
theorem obsOf_make_decisive_action (S : Settings) (obstacles : List Cell)
    (corridor : Cell → ℕ) (dirs : ℕ → List Dir) (robots : List Robot)
    (i : ℕ) :
    obsOf (make_decisive_action S obstacles corridor dirs robots i).2 =
      obsOf robots := by
  unfold make_decisive_action
  split
  · rfl
  next rb0 hq =>
    have hgd : robots.getD i dummyRobot = rb0 := by
      rw [List.getD_eq_getElem?_getD, ← List.get?_eq_getElem?, hq]
      rfl
    dsimp only
    (repeat' split) <;>
      first
        | rfl
        | (apply obsOf_set <;>
            (rw [hgd]
             first
               | exact decisive_bookkeeping_id rb0
               | exact decisive_bookkeeping_pos rb0))
        | (apply obsOf_emergency_step <;>
            (rw [hgd]
             first
               | exact decisive_bookkeeping_id rb0
               | exact decisive_bookkeeping_pos rb0))
        | (apply obsOf_deadlock_tail <;>
            (rw [hgd]
             first
               | exact decisive_bookkeeping_id rb0
               | exact decisive_bookkeeping_pos rb0))
        | (rename_i rb' h
           obtain ⟨h1, h2⟩ := get_emergency_move_snd_eq _ _ _ _ _ _ _ h
           have hid' : rb'.id = (robots.getD i dummyRobot).id := by
             rw [hgd]
             exact h1.trans (decisive_bookkeeping_id rb0)
           have hpos' : rb'.pos = (robots.getD i dummyRobot).pos := by
             rw [hgd]
             exact h2.trans (decisive_bookkeeping_pos rb0)
           first
             | exact obsOf_set _ _ _ hid' hpos'
             | exact obsOf_deadlock_tail S obstacles corridor dirs i robots
                 rb' hid' hpos')

/-- `decisive_dispatch` preserves the observables. -/
theorem obsOf_decisive_dispatch (S : Settings) (obstacles : List Cell)
    (pkgs : Packages) (astar : AStarFn) (robots : List Robot) (i : ℕ)
    (action : DecisiveAction) :
    obsOf (decisive_dispatch S obstacles pkgs astar robots i action) =
      obsOf robots := by
  unfold decisive_dispatch
  dsimp only
  (repeat' split) <;> first | rfl | (apply obsOf_set <;> rfl)

/-- One step of tick phase 4 preserves the observables. -/
theorem obsOf_phase4_step (S : Settings) (obstacles : List Cell)
    (corridor : Cell → ℕ) (astar : AStarFn) (dirs : ℕ → List Dir)
    (st : List Robot × Packages) (i : ℕ) :
    obsOf (phase4_step S obstacles corridor astar dirs st i).1 =
      obsOf st.1 := by
  obtain ⟨rs, ps⟩ := st
  unfold phase4_step
  dsimp only
  split
  · rw [obsOf_decisive_dispatch, obsOf_make_decisive_action]
  · rfl

/-- Tick phases 3 and 4 preserve the observables. -/
theorem obsOf_tick_phase34 (S : Settings) (obstacles : List Cell)
    (corridor : Cell → ℕ) (astar : AStarFn) (dirs : ℕ → List Dir)
    (step : ℕ) (st : List Robot × Packages) :
    obsOf (tick_phase34 S obstacles corridor astar dirs step st).1 =
      obsOf st.1 := by
  unfold tick_phase34
  dsimp only
  exact (obsOf_foldl_fst _ (fun st' i => obsOf_phase4_step
      S obstacles corridor astar dirs st' i) _ _).trans
    (obsOf_foldl_fst _ (fun st' i => obsOf_phase3_step
      S obstacles corridor astar _ step st' i) _ _)

/-- Setting index `i` to a robot on the same cell as the current
occupant leaves the cell list unchanged. -/
theorem pos_map_set (l : List Robot) (i : ℕ) (rb' : Robot)
    (hpos : rb'.pos = (l.getD i dummyRobot).pos) :
    (l.set i rb').map Robot.pos = l.map Robot.pos := by
  induction l generalizing i with
  | nil => rfl
  | cons a t ih =>
      cases i with
      | zero =>
          rw [List.getD_cons_zero] at hpos
          simp [hpos]
      | succ j =>
          rw [List.getD_cons_succ] at hpos
          simp only [List.set_cons_succ, List.map_cons]
          rw [ih j hpos]

/-- `plan_phase` preserves the observables. -/
theorem obsOf_plan_phase (S : Settings) (obstacles : List Cell)
    (astar : AStarFn) (order : List ℕ) (robots : List Robot)
    (pkgs : Packages) :
    obsOf (plan_phase S obstacles astar order robots pkgs).1 =
      obsOf robots := by
  unfold plan_phase
  refine obsOf_foldl_fst _ ?_ _ _
  intro st i
  obtain ⟨rs, ps, pm⟩ := st
  dsimp only
  apply obsOf_set
  · exact ((phase5_idle_idpos _ _ _ _ _ _).1).trans
      (((phase5_predict_idpos _ _ _ _).1).trans
        ((phase5_plan_idpos _ _ _ _ _ _).1))
  · exact ((phase5_idle_idpos _ _ _ _ _ _).2).trans
      (((phase5_predict_idpos _ _ _ _).2).trans
        ((phase5_plan_idpos _ _ _ _ _ _).2))

/-- One step of tick phase 7 preserves the observables. -/
theorem obsOf_phase7_step (S : Settings) (obstacles : List Cell)
    (astar : AStarFn) (ps : Packages) (reserved : List Cell)
    (rs : List Robot) (i : ℕ) :
    obsOf (phase7_step S obstacles astar ps reserved rs i) = obsOf rs := by
  unfold phase7_step
  dsimp only
  (repeat' split) <;> first | rfl | (apply obsOf_set <;> rfl)

/-- Tick phase 7 preserves the observables. -/
theorem obsOf_tick_phase7 (S : Settings) (obstacles : List Cell)
    (astar : AStarFn) (st : List Robot × Packages × List Cell) :
    obsOf (tick_phase7 S obstacles astar st).robots = obsOf st.1 := by
  unfold tick_phase7
  exact obsOf_foldl _ (fun rs i => obsOf_phase7_step
    S obstacles astar st.2.1 st.2.2 rs i) _ _

/-- Replacing the robot at index `i` by one with the occupant's id,
sitting on a cell that no robot with a different id occupies, keeps the
cells pairwise distinct. -/
theorem distinct_pos_set_move (l : List Robot) (i : ℕ) (rb' : Robot)
    (hids : distinct_ids l) (hpos : distinct_pos l)
    (hno : ∀ o ∈ l, o.id ≠ (l.getD i dummyRobot).id → o.pos ≠ rb'.pos) :
    distinct_pos (l.set i rb') := by
  induction l generalizing i with
  | nil => exact hpos
  | cons a t ih =>
      rw [distinct_ids, List.pairwise_cons] at hids
      rw [distinct_pos, List.pairwise_cons] at hpos
      cases i with
      | zero =>
          rw [List.set_cons_zero]
          rw [distinct_pos, List.pairwise_cons]
          refine ⟨?_, hpos.2⟩
          intro b hb
          refine (hno b (List.mem_cons_of_mem a hb) ?_).symm
          rw [List.getD_cons_zero]
          exact fun he => (hids.1 b hb) he.symm
      | succ j =>
          rw [List.set_cons_succ]
          by_cases hj : t.length ≤ j
          · rw [List.set_eq_of_length_le hj]
            rw [distinct_pos, List.pairwise_cons]
            exact hpos
          · push_neg at hj
            have hmem : t.getD j dummyRobot ∈ t := by
              rw [List.getD_eq_getElem t dummyRobot hj]
              exact List.getElem_mem hj
            rw [distinct_pos, List.pairwise_cons]
            constructor
            · intro b hb
              rcases List.mem_or_eq_of_mem_set hb with hbt | hbe
              · exact hpos.1 b hbt
              · rw [hbe]
                refine (hno a (List.mem_cons_self a t) ?_)
                rw [List.getD_cons_succ]
                exact hids.1 _ hmem
            · refine ih j hids.2 hpos.2 ?_
              intro o ho hoid
              refine hno o (List.mem_cons_of_mem a ho) ?_
              rw [List.getD_cons_succ]
              exact hoid

/-- Pairwise-distinct cells give mutual exclusion. -/
theorem mutual_exclusion_of_distinct_pos (rs : List Robot)
    (h : distinct_pos rs) : mutual_exclusion rs := by
  intro a ha b hb hid
  have hab : a ≠ b := fun he => hid (by rw [he])
  exact List.Pairwise.forall (fun x y hxy => Ne.symm hxy) h ha hb hab

/-- One committed step of the execute phase keeps ids and cells
pairwise distinct. -/
theorem exec_step_preserves (S : Settings) (obstacles : List Cell)
    (astar : AStarFn) (pm : PlannedMoves)
    (st : List Robot × Packages × List Cell) (i : ℕ)
    (h1 : distinct_ids st.1) (h2 : distinct_pos st.1) :
    distinct_ids (exec_step S obstacles astar pm st i).1 ∧
    distinct_pos (exec_step S obstacles astar pm st i).1 := by
  obtain ⟨rs, ps, reserved⟩ := st
  dsimp only at h1 h2 ⊢
  unfold exec_step
  dsimp only
  split
  · refine ⟨(distinct_ids_congr (ids_map_set _ _ _ ?_)).mpr h1,
      (distinct_pos_congr (pos_map_set _ _ _ ?_)).mpr h2⟩ <;> rfl
  split
  · split <;>
      (refine ⟨(distinct_ids_congr (ids_map_set _ _ _ ?_)).mpr h1,
        (distinct_pos_congr (pos_map_set _ _ _ ?_)).mpr h2⟩ <;> rfl)
  split
  · refine ⟨(distinct_ids_congr (ids_map_set _ _ _ ?_)).mpr h1,
      (distinct_pos_congr (pos_map_set _ _ _ ?_)).mpr h2⟩ <;> rfl
  split
  · refine ⟨(distinct_ids_congr (ids_map_set _ _ _ ?_)).mpr h1,
      (distinct_pos_congr (pos_map_set _ _ _ ?_)).mpr h2⟩ <;> rfl
  next h4 =>
    rw [not_or, Bool.not_eq_true, List.any_eq_false] at h4
    (repeat' split) <;>
      (refine ⟨(distinct_ids_congr (ids_map_set _ _ _ ?_)).mpr h1,
         distinct_pos_set_move _ _ _ h1 h2 ?_⟩
       · exact (exec_task_transitions_idpos _ _ _ _ _ _ _).1
       · intro o ho hoid
         rw [(exec_task_transitions_idpos _ _ _ _ _ _ _).2]
         have hb := h4.1 o ho
         simp only [Bool.and_eq_true, decide_eq_true_eq, not_and] at hb
         exact hb hoid)

/-- The whole execute fold keeps ids and cells pairwise distinct. -/
theorem exec_fold_preserves (S : Settings) (obstacles : List Cell)
    (astar : AStarFn) (pm : PlannedMoves) (order : List ℕ) :
    ∀ (st : List Robot × Packages × List Cell),
      distinct_ids st.1 → distinct_pos st.1 →
      distinct_ids ((order.foldl (exec_step S obstacles astar pm) st).1) ∧
      distinct_pos ((order.foldl (exec_step S obstacles astar pm) st).1) := by
  induction order with
  | nil => intro st ha hb; exact ⟨ha, hb⟩
  | cons a t ih =>
      intro st ha hb
      rw [List.foldl_cons]
      obtain ⟨g1, g2⟩ := exec_step_preserves S obstacles astar pm st a ha hb
      exact ih _ g1 g2

/-- Tick phases 5 and 6 keep ids and cells pairwise distinct. -/
theorem tick_phase56_preserves (S : Settings) (obstacles : List Cell)
    (astar : AStarFn) (st : List Robot × Packages)
    (h1 : distinct_ids st.1) (h2 : distinct_pos st.1) :
    distinct_ids (tick_phase56 S obstacles astar st).1 ∧
    distinct_pos (tick_phase56 S obstacles astar st).1 := by
  unfold tick_phase56
  dsimp only
  have hobs : obsOf (plan_phase S obstacles astar (sorted_indices st.1)
      st.1 st.2).1 = obsOf st.1 := obsOf_plan_phase _ _ _ _ _ _
  refine exec_fold_preserves S obstacles astar _ _ _ ?_ ?_
  · exact (distinct_ids_congr (map_id_of_obsOf hobs)).mpr h1
  · exact (distinct_pos_congr (map_pos_of_obsOf hobs)).mpr h2

/-- A full tick keeps ids and cells pairwise distinct. -/
theorem tick_preserves_distinct (S : Settings) (obstacles : List Cell)
    (astar : AStarFn) (dirs : ℕ → List Dir) (step : ℕ) (st : SimState)
    (h1 : distinct_ids st.robots) (h2 : distinct_pos st.robots) :
    distinct_ids (tick S obstacles astar dirs step st).robots ∧
    distinct_pos (tick S obstacles astar dirs step st).robots := by
  unfold tick
  dsimp only
  have hB : obsOf (tick_phase34 S obstacles (corridor_map S obstacles)
      astar dirs step
      (tick_phase2 S obstacles dirs (tick_phase1 S obstacles astar step st).1,
        (tick_phase1 S obstacles astar step st).2)).1 = obsOf st.robots := by
    refine (obsOf_tick_phase34 _ _ _ _ _ _ _).trans ?_
    exact (obsOf_tick_phase2 _ _ _ _).trans (obsOf_tick_phase1 _ _ _ _ _)
  obtain ⟨g1, g2⟩ := tick_phase56_preserves S obstacles astar _
    ((distinct_ids_congr (map_id_of_obsOf hB)).mpr h1)
    ((distinct_pos_congr (map_pos_of_obsOf hB)).mpr h2)
  have hD := obsOf_tick_phase7 S obstacles astar
    (tick_phase56 S obstacles astar
      (tick_phase34 S obstacles (corridor_map S obstacles) astar dirs step
        (tick_phase2 S obstacles dirs
          (tick_phase1 S obstacles astar step st).1,
          (tick_phase1 S obstacles astar step st).2)))
  exact ⟨(distinct_ids_congr (map_id_of_obsOf hD)).mpr g1,
    (distinct_pos_congr (map_pos_of_obsOf hD)).mpr g2⟩

end SLS
